import Mathlib

/-!
Graphics passthrough (`hw/xen/xen_pt_graphics.c`)

A shallow embedding of the VGA region registrar, the OpRegion mapper and the
legacy VBIOS setup path, followed by theorems about them.

Conventions of the embedding:

* file-scope statics (`igd_guest_opregion`, `igd_host_opregion`, `vga_args`)
  live in `World`, next to the ordered trace of calls made to external
  collaborators (hypervisor, host PCI config space, guest physical memory,
  PCI device model);
* what the collaborators answer is read from an `Env`; every answer may depend
  on the calls issued so far;
* bytes are `Fin 256`, so `unsigned char` / `char` arithmetic wraps by itself;
  wider machine integers are `Nat` / `Int` with explicit reductions.
-/

namespace XenPtGraphics

/-! ## Constants -/

/-- Modelled from the spec: `XC_PAGE_SHIFT` is declared in the Xen control
library headers, not in this file; addresses become page-frame numbers by
`>> 12` (4 KiB pages). -/
def XC_PAGE_SHIFT : Nat := 12

def XEN_PCI_INTEL_OPREGION_MASK : Nat := 0xfff

def IORESOURCE_IO : Nat := 0x00000100

def IORESOURCE_MEM : Nat := 0x00000200

/-- Modelled from the spec: the flag of the hypervisor mapping interface that
asks to add a mapping; declared in the Xen headers, not in this file. Only its
being different from `DPCI_REMOVE_MAPPING` matters. -/
def DPCI_ADD_MAPPING : Nat := 1

/-- Modelled from the spec: the flag of the hypervisor mapping interface that
asks to remove a mapping; declared in the Xen headers, not in this file. -/
def DPCI_REMOVE_MAPPING : Nat := 0

/-- Modelled from the spec: the host config-space offset of the OpRegion base
register, declared in `xen_pt.h`, not in this file. No statement depends on its
value. -/
def XEN_PCI_INTEL_OPREGION : Nat := 0xfc

def XEN_PCI_INTEL_OPREGION_PAGES : Nat := 0x3

/-- Modelled from the spec: the BAR slot of the expansion ROM, declared in the
PCI headers, not in this file. No statement depends on its value. -/
def PCI_ROM_SLOT : Nat := 6

/-- Modelled from the spec: the BAR type of a memory BAR, declared in the PCI
headers, not in this file. No statement depends on its value. -/
def PCI_BASE_ADDRESS_SPACE_MEMORY : Nat := 0

/-! ## Data model -/

abbrev Byte := Fin 256

/-- The C struct `VGARegion`. -/
structure VGARegion where
  type : Nat
  guest_base_addr : Nat
  machine_base_addr : Nat
  size : Nat
  rc : Int
  deriving DecidableEq, Repr

/-- Static initialiser of the array `vga_args`. -/
def vga_args : List VGARegion :=
  [ { type := IORESOURCE_IO, guest_base_addr := 0x3B0, machine_base_addr := 0x3B0,
      size := 0xC, rc := -1 },
    { type := IORESOURCE_IO, guest_base_addr := 0x3C0, machine_base_addr := 0x3C0,
      size := 0x20, rc := -1 },
    { type := IORESOURCE_MEM, guest_base_addr := 0xa0000 >>> XC_PAGE_SHIFT,
      machine_base_addr := 0xa0000 >>> XC_PAGE_SHIFT, size := 0x20, rc := -1 } ]

/-- The part of `XenHostPCIDevice` the file reads. -/
structure XenHostPCIDevice where
  domain : Nat
  bus : Nat
  dev : Nat
  func : Nat
  device_id : Nat
  deriving DecidableEq, Repr

/-- A call to an external collaborator, with the arguments the file passes. -/
inductive Call where
  | xc_domain_ioport_mapping (first_gport first_mport nr_ports add_mapping : Nat)
  | xc_domain_memory_mapping (first_gfn first_mfn nr_mfns add_mapping : Nat)
  | xen_host_pci_get_block (d : XenHostPCIDevice) (pos len : Nat)
  | pci_assign_dev_load_option_rom (domain bus dev func : Nat)
  | open_dev_mem
  | mmap_dev_mem (length offset : Nat)
  | memory_region_init_ram (size : Nat)
  | cpu_physical_memory_rw (addr : Nat) (buf : List Byte) (is_write : Nat)
  | memory_region_set_address (addr : Nat)
  | pci_register_bar (region_num type : Nat)
  deriving DecidableEq, Repr

/-- Answers of the external collaborators. `hist` is the list of calls issued
before the one being answered. -/
structure Env where
  /-- the predicate `is_igd_vga_passthrough(dev)` -/
  is_igd_vga_passthrough : XenHostPCIDevice → Bool
  /-- status returned by `xc_domain_ioport_mapping` / `xc_domain_memory_mapping` -/
  xc : (hist : List Call) → Call → Int
  /-- the `len` bytes `xen_host_pci_get_block` stores, as a little-endian number -/
  host_pci_block : (hist : List Call) → XenHostPCIDevice → (pos len : Nat) → Nat
  /-- the array `VBIOS_RENOIR` of `amd_renoir_vbios.h` -/
  VBIOS_RENOIR : List Byte
  /-- the buffer `pci_assign_dev_load_option_rom` returns, `none` for NULL -/
  load_option_rom : (hist : List Call) → (domain bus dev func : Nat) → Option (List Byte)
  /-- whether `open("/dev/mem", O_RDONLY)` yields a descriptor -/
  open_dev_mem : (hist : List Call) → Bool
  /-- the window `mmap` returns, `none` for MAP_FAILED -/
  mmap_dev_mem : (hist : List Call) → (length offset : Nat) → Option (List Byte)
  /-- byte `i` of the `size`-byte RAM block that `memory_region_init_ram` allocates
  and `memory_region_get_ram_ptr` hands out; the file assumes nothing about it -/
  ram_init : (hist : List Call) → (size : Nat) → Fin size → Byte

/-- File-scope statics of the translation unit and the trace of external calls. -/
structure World where
  igd_guest_opregion : Nat
  igd_host_opregion : Nat
  vga_args : List VGARegion
  trace : List Call
  deriving DecidableEq, Repr

/-- Program start: zero-initialised statics, `vga_args` as initialised, no call yet. -/
def World.init : World :=
  { igd_guest_opregion := 0, igd_host_opregion := 0, vga_args := XenPtGraphics.vga_args,
    trace := [] }

/-! ## VGA region registrar -/

/-- The hypervisor call one loop iteration issues for `vga_args[i]`: the ioport
variant for an `IORESOURCE_IO` entry, the memory variant otherwise. -/
def vga_region_call (r : VGARegion) (add_mapping : Nat) : Call :=
  if r.type = IORESOURCE_IO then
    Call.xc_domain_ioport_mapping r.guest_base_addr r.machine_base_addr r.size add_mapping
  else
    Call.xc_domain_memory_mapping r.guest_base_addr r.machine_base_addr r.size add_mapping

/-- The loop `for (i = 0; i < ARRAY_SIZE(vga_args); i++)` shared (up to the
mapping flag) by register and unregister. The first argument counts the
iterations left, `ARRAY_SIZE(vga_args) - i`. The result is `(rc, w)`: `rc ≠ 0`
is the status the function returns from inside the loop, `rc = 0` means the
loop ran to its end. -/
def vga_regions_loop (env : Env) (add_mapping : Nat) : Nat → Nat → World → Int × World
  | 0, _, w => (0, w)
  | n + 1, i, w =>
    match w.vga_args.get? i with
    | none => (0, w)
    | some r =>
      let c := vga_region_call r add_mapping
      let rc := env.xc w.trace c
      let w1 : World :=
        { w with vga_args := w.vga_args.set i { r with rc := rc }, trace := w.trace ++ [c] }
      if rc ≠ 0 then (rc, w1) else vga_regions_loop env add_mapping n (i + 1) w1

/-- `int xen_pt_register_vga_regions(XenHostPCIDevice *dev)`. -/
def xen_pt_register_vga_regions (env : Env) (dev : XenHostPCIDevice) (w : World) :
    Int × World :=
  if !env.is_igd_vga_passthrough dev then (0, w)
  else
    let r := vga_regions_loop env DPCI_ADD_MAPPING w.vga_args.length 0 w
    if r.1 ≠ 0 then r else (0, r.2)

/-- `int xen_pt_unregister_vga_regions(XenHostPCIDevice *dev)`. -/
def xen_pt_unregister_vga_regions (env : Env) (dev : XenHostPCIDevice) (w : World) :
    Int × World :=
  if !env.is_igd_vga_passthrough dev then (0, w)
  else
    let r := vga_regions_loop env DPCI_REMOVE_MAPPING w.vga_args.length 0 w
    if r.1 ≠ 0 then r
    else
      let w1 := r.2
      if w1.igd_guest_opregion ≠ 0 then
        let c := Call.xc_domain_memory_mapping
          (w1.igd_guest_opregion >>> XC_PAGE_SHIFT)
          (w1.igd_host_opregion >>> XC_PAGE_SHIFT) 3 DPCI_REMOVE_MAPPING
        let ret := env.xc w1.trace c
        let w2 : World := { w1 with trace := w1.trace ++ [c] }
        if ret ≠ 0 then (ret, w2) else (0, w2)
      else (0, w1)

/-! ## OpRegion mapper -/

/-- The part of `XenPCIPassthroughState` the file touches: the host device, the
RAM behind `dev.rom` (once `memory_region_init_ram` ran) and `dev.has_rom`. -/
structure XenPCIPassthroughState where
  real_device : XenHostPCIDevice
  rom : Option (List Byte)
  has_rom : Bool
  deriving DecidableEq, Repr

/-- `uint32_t igd_read_opregion(XenPCIPassthroughState *s)`; the result is the
static narrowed to 32 bits. -/
def igd_read_opregion (_s : XenPCIPassthroughState) (w : World) : Nat :=
  if w.igd_guest_opregion = 0 then 0 else w.igd_guest_opregion % 2 ^ 32

/-- `void igd_write_opregion(XenPCIPassthroughState *s, uint32_t val)`.
`xen_host_pci_get_block` stores 4 bytes at the address of the `unsigned long`
static `igd_host_opregion`: on the little-endian LP64 host the source assumes
these are its low 32 bits, the upper 32 bits keep their value. -/
def igd_write_opregion (env : Env) (s : XenPCIPassthroughState) (val : Nat) (w : World) :
    World :=
  if w.igd_guest_opregion ≠ 0 then w
  else
    let rd := Call.xen_host_pci_get_block s.real_device XEN_PCI_INTEL_OPREGION 4
    let host := w.igd_host_opregion / 2 ^ 32 * 2 ^ 32
      + env.host_pci_block w.trace s.real_device XEN_PCI_INTEL_OPREGION 4 % 2 ^ 32
    let guest := ((val % 2 ^ 32) &&& (2 ^ 32 - 1 - XEN_PCI_INTEL_OPREGION_MASK))
      ||| (host &&& XEN_PCI_INTEL_OPREGION_MASK)
    let c := Call.xc_domain_memory_mapping (guest >>> XC_PAGE_SHIFT) (host >>> XC_PAGE_SHIFT)
      XEN_PCI_INTEL_OPREGION_PAGES DPCI_ADD_MAPPING
    let ret := env.xc (w.trace ++ [rd]) c
    let w1 : World :=
      { w with igd_host_opregion := host, igd_guest_opregion := guest,
               trace := w.trace ++ [rd, c] }
    if ret ≠ 0 then { w1 with igd_guest_opregion := 0 } else w1

/-! ## Legacy VBIOS setup -/

/-- What `error_setg(errp, ...)` stored: one constructor per call site of the file. -/
inductive SetupError where
  /-- "Need to enable igd-passthrough" -/
  | need_igd_passthrough
  /-- "Can't open /dev/mem: ..." -/
  | cant_open_dev_mem
  /-- "Failed to mmap host vbios: ..." -/
  | mmap_host_vbios_failed
  /-- "host vbios in /dev/mem has bad magic ..." -/
  | host_vbios_bad_magic
  /-- "VGA: VBIOS image corrupt (too small)" -/
  | image_corrupt_too_small
  /-- "VGA: VBIOS image corrupt (bad pcioffset field)" -/
  | image_corrupt_bad_pcioffset
  /-- "VGA: VBIOS image corrupt (bad size field)" -/
  | image_corrupt_bad_size
  deriving DecidableEq, Repr

/-- The error kinds the specification distinguishes. -/
inductive ErrorKind where
  | ResourceMappingFailure
  | ImageCorrupt
  | DeviceAccessFailure
  | ConfigurationError
  deriving DecidableEq, Repr

/-- Kind of each error of the file: bad magic, size or offset is `ImageCorrupt`,
a failure to open or map host memory is `DeviceAccessFailure`, a feature that is
not enabled is `ConfigurationError`. -/
def SetupError.kind : SetupError → ErrorKind
  | .need_igd_passthrough => .ConfigurationError
  | .cant_open_dev_mem => .DeviceAccessFailure
  | .mmap_host_vbios_failed => .DeviceAccessFailure
  | .host_vbios_bad_magic => .ImageCorrupt
  | .image_corrupt_too_small => .ImageCorrupt
  | .image_corrupt_bad_pcioffset => .ImageCorrupt
  | .image_corrupt_bad_size => .ImageCorrupt

/-- What a setup function leaves behind: the device state, the statics and trace,
and the content of `*errp` (`none` when no error was set). -/
structure SetupResult where
  s : XenPCIPassthroughState
  w : World
  errp : Option SetupError
  deriving DecidableEq, Repr

/-- `sizeof(struct rom_header)`: 2 + 1 + 4 + 17 + 2 + 2, packed. -/
def sizeof_rom_header : Nat := 28

/-- `sizeof(struct pci_data)`: 4 + 2·4 + 1 + 1 + 2·3 + 1 + 1 + 2, packed. -/
def sizeof_pci_data : Nat := 24

/-- Byte `i` of a buffer. A read past the end, undefined in C, yields 0. -/
def byte_at (buf : List Byte) (i : Nat) : Byte := buf.getD i 0

/-- A little-endian `uint16_t` read at byte offset `off`. -/
def read_u16 (buf : List Byte) (off : Nat) : Nat :=
  (byte_at buf off).val + 256 * (byte_at buf (off + 1)).val

/-- A little-endian `uint16_t` store at byte offset `off`. -/
def write_u16 (buf : List Byte) (off : Nat) (v : Nat) : List Byte :=
  (buf.set off (Fin.ofNat v)).set (off + 1) (Fin.ofNat (v / 256))

/-- The field `rom->size` (offset 2 of `struct rom_header`). -/
def rom_size (bios : List Byte) : Nat := (byte_at bios 2).val

/-- The field `rom->pcioffset` (offset 24 of `struct rom_header`). -/
def rom_pcioffset (bios : List Byte) : Nat := read_u16 bios 24

/-- Offset of the field `device` within `struct pci_data`. -/
def offsetof_pci_data_device : Nat := 6

/-- `memcpy(dst, src, n)` on buffer contents. For `n` beyond the end of `dst`
the C call is undefined; the model then keeps all `n` bytes copied. -/
def memcpy (dst src : List Byte) (n : Nat) : List Byte := src.take n ++ dst.drop n

/-- `memset(dst, 0, n)` on buffer contents. -/
def memset_zero (dst : List Byte) (n : Nat) : List Byte :=
  List.replicate (min n dst.length) 0 ++ dst.drop n

/-- The loop `for (c = bios; c < bios + len; c++) checksum += *c;` in `char`
arithmetic (modulo 256). -/
def bios_checksum (bios : List Byte) (len : Nat) : Byte :=
  (bios.take len).foldl (fun acc c => acc + c) 0

/-- Result of the validation and patching stage: the buffer `bios` as the stage
leaves it, the statics and trace, and `*errp`. -/
structure PatchResult where
  bios : List Byte
  w : World
  errp : Option SetupError
  deriving DecidableEq, Repr

/-- The validation and patching stage of `xen_pt_setup_vga`, from the check
`bios_size < sizeof(struct rom_header)` to the final `cpu_physical_memory_rw`,
run on the buffer `bios` of `bios_size = bios.length` bytes. -/
def vbios_validate_patch (s : XenPCIPassthroughState) (bios : List Byte) (w : World) :
    PatchResult :=
  let bios_size := bios.length
  if bios_size < sizeof_rom_header then
    { bios := bios, w := w, errp := some .image_corrupt_too_small }
  else if rom_pcioffset bios + sizeof_pci_data > bios_size then
    { bios := bios, w := w, errp := some .image_corrupt_bad_pcioffset }
  else
    -- pd = (void *)(bios + (unsigned char)rom->pcioffset)
    let pd := rom_pcioffset bios % 256
    let device_id := s.real_device.device_id % 2 ^ 16
    if read_u16 bios (pd + offsetof_pci_data_device) ≠ device_id then
      let bios1 := write_u16 bios (pd + offsetof_pci_data_device) device_id
      let len := rom_size bios1 * 512
      if len > bios_size then
        { bios := bios1, w := w, errp := some .image_corrupt_bad_size }
      else
        let checksum := bios_checksum bios1 len
        let bios2 :=
          if checksum ≠ 0 then bios1.set (len - 1) (byte_at bios1 (len - 1) - checksum)
          else bios1
        { bios := bios2,
          w := { w with trace := w.trace ++
            [Call.cpu_physical_memory_rw 0xc0000 (bios2.take bios_size) 1] },
          errp := none }
    else
      { bios := bios,
        w := { w with trace := w.trace ++
          [Call.cpu_physical_memory_rw 0xc0000 (bios.take bios_size) 1] },
        errp := none }

/-- `static void xen_pt_direct_vbios_copy(XenPCIPassthroughState *s, Error **errp)`. -/
def xen_pt_direct_vbios_copy (env : Env) (s : XenPCIPassthroughState) (w : World) :
    SetupResult :=
  let bios_size := 32 <<< XC_PAGE_SHIFT
  let vbios_addr := 0xc0000
  let w1 : World := { w with trace := w.trace ++ [Call.open_dev_mem] }
  if !env.open_dev_mem w.trace then { s := s, w := w1, errp := some .cant_open_dev_mem }
  else
    let w2 : World :=
      { w1 with trace := w1.trace ++ [Call.mmap_dev_mem bios_size vbios_addr] }
    match env.mmap_dev_mem w1.trace bios_size vbios_addr with
    | none => { s := s, w := w2, errp := some .mmap_host_vbios_failed }
    | some host_vbios =>
      if byte_at host_vbios 0 ≠ 0x55 ∨ byte_at host_vbios 1 ≠ 0xaa then
        { s := s, w := w2, errp := some .host_vbios_bad_magic }
      else
        let guest_bios := memcpy (List.ofFn (env.ram_init w2.trace bios_size)) host_vbios
          bios_size
        { s := { s with rom := some guest_bios, has_rom := true },
          w := { w2 with trace := w2.trace ++
            [Call.memory_region_init_ram bios_size,
             Call.cpu_physical_memory_rw vbios_addr (guest_bios.take bios_size) 1,
             Call.memory_region_set_address vbios_addr,
             Call.pci_register_bar PCI_ROM_SLOT PCI_BASE_ADDRESS_SPACE_MEMORY] },
          errp := none }

/-- `static void *get_sysfs_vgabios(XenPCIPassthroughState *s, int *size,
XenHostPCIDevice *dev)`: the buffer `pci_assign_dev_load_option_rom` returns
(`none` for NULL); its length is what the call stores in `*size`. -/
def get_sysfs_vgabios (env : Env) (dev : XenHostPCIDevice) (w : World) :
    Option (List Byte) × World :=
  (env.load_option_rom w.trace dev.domain dev.bus dev.dev dev.func,
   { w with trace := w.trace ++
      [Call.pci_assign_dev_load_option_rom dev.domain dev.bus dev.dev dev.func] })

/-- The block guarded by `if (1)` in `xen_pt_setup_vga`: the embedded image
`VBIOS_RENOIR` is copied into a fresh 32-page RAM region, zeroed by `memset`
first, and committed. -/
def xen_pt_setup_vga_embedded (env : Env) (s : XenPCIPassthroughState) (w : World) :
    SetupResult :=
  let bios_size := 32 <<< XC_PAGE_SHIFT
  let vbios_addr := 0xc0000
  let bios := env.VBIOS_RENOIR
  if byte_at bios 0 ≠ 0x55 ∨ byte_at bios 1 ≠ 0xaa then
    { s := s, w := w, errp := none }
  else
    let w1 : World := { w with trace := w.trace ++ [Call.memory_region_init_ram bios_size] }
    let guest_bios := List.ofFn (env.ram_init w.trace bios_size)
    let guest_bios := memset_zero guest_bios bios_size
    let guest_bios := memcpy guest_bios bios bios.length
    let s1 : XenPCIPassthroughState := { s with rom := some guest_bios }
    if byte_at guest_bios 0 ≠ 0x55 ∨ byte_at guest_bios 1 ≠ 0xaa then
      { s := s1, w := w1, errp := none }
    else
      { s := { s1 with has_rom := true },
        w := { w1 with trace := w1.trace ++
          [Call.cpu_physical_memory_rw vbios_addr (guest_bios.take bios_size) 1,
           Call.memory_region_set_address vbios_addr,
           Call.pci_register_bar PCI_ROM_SLOT PCI_BASE_ADDRESS_SPACE_MEMORY] },
        errp := none }

/-- `void xen_pt_setup_vga(XenPCIPassthroughState *s, XenHostPCIDevice *dev, Error **errp)`.
The code after the `if (1)` block is kept as the `else` branch it amounts to. -/
def xen_pt_setup_vga (env : Env) (s : XenPCIPassthroughState) (dev : XenHostPCIDevice)
    (w : World) : SetupResult :=
  if !env.is_igd_vga_passthrough dev then
    { s := s, w := w, errp := some .need_igd_passthrough }
  else if (1 : Nat) ≠ 0 then
    xen_pt_setup_vga_embedded env s w
  else
    match get_sysfs_vgabios env dev w with
    | (none, w1) => xen_pt_direct_vbios_copy env s w1
    | (some bios, w1) =>
      let r := vbios_validate_patch s bios w1
      { s := s, w := r.w, errp := r.errp }

/-! ## Test fixtures -/

/-- An environment where the device qualifies, every hypervisor call returns 0,
host config space reports `h`, the embedded image is `img` and freshly allocated
RAM is filled with 0xCC. -/
def Env.ok (h : Nat) (img : List Byte) : Env :=
  { is_igd_vga_passthrough := fun _ => true
    xc := fun _ _ => 0
    host_pci_block := fun _ _ _ _ => h
    VBIOS_RENOIR := img
    load_option_rom := fun _ _ _ _ _ => none
    open_dev_mem := fun _ => false
    mmap_dev_mem := fun _ _ _ => none
    ram_init := fun _ _ _ => 0xCC }

/-- An environment like `Env.ok` whose hypervisor fails, with status `rc`, the
call number `k` (counting every call of the trace from 0). -/
def Env.failAt (k : Nat) (rc : Int) (h : Nat) (img : List Byte) : Env :=
  { Env.ok h img with xc := fun hist _ => if hist.length = k then rc else 0 }

/-- A host device with the given device ID. -/
def dev0 (device_id : Nat) : XenHostPCIDevice :=
  { domain := 0, bus := 0, dev := 2, func := 0, device_id := device_id }

/-- A passthrough state for `dev0`, without ROM. -/
def s0 (device_id : Nat) : XenPCIPassthroughState :=
  { real_device := dev0 device_id, rom := none, has_rom := false }

/-- A 512-byte image with the magic bytes, `size` in 512-byte units, `pcioffset`
= 0x1C and, at byte 28, a PCI data structure with signature "PCIR" and device
field `d0`, `d1` (bytes 34..35); all other bytes 0. -/
def img_pci_at_0x1c (size d0 d1 : Byte) : List Byte :=
  [0x55, 0xAA, size] ++ List.replicate 21 0 ++ [0x1C, 0x00, 0, 0]
    ++ [0x50, 0x43, 0x49, 0x52, 0, 0, d0, d1] ++ List.replicate 476 0

/-- Sum of the first `n` bytes of a buffer, as a natural number. -/
def byte_sum (buf : List Byte) (n : Nat) : Nat := ((buf.take n).map Fin.val).sum

/-- The guest-physical-memory writes among a list of calls. -/
def guest_writes (calls : List Call) : List Call :=
  calls.filter fun c =>
    match c with
    | .cpu_physical_memory_rw _ _ 1 => true
    | _ => false

/-! ## Vocabulary of the statements -/

/-- The array `vga_args` equals its initialiser up to the `rc` fields, the only
fields the file ever assigns. -/
def VgaArgsIntact (l : List VGARegion) : Prop :=
  l.map (fun r => { r with rc := -1 }) = vga_args

instance (l : List VGARegion) : Decidable (VgaArgsIntact l) := by
  unfold VgaArgsIntact; infer_instance

/-- The three hypervisor calls for the legacy VGA regions, in array order, with
the given mapping flag. -/
def vga_calls (add_mapping : Nat) : List Call :=
  [ Call.xc_domain_ioport_mapping 0x3B0 0x3B0 0xC add_mapping,
    Call.xc_domain_ioport_mapping 0x3C0 0x3C0 0x20 add_mapping,
    Call.xc_domain_memory_mapping 0xA0 0xA0 0x20 add_mapping ]

/-- Guest-side base (port or frame) of a hypervisor mapping call. -/
def Call.guest_base : Call → Option Nat
  | .xc_domain_ioport_mapping g _ _ _ => some g
  | .xc_domain_memory_mapping g _ _ _ => some g
  | _ => none

/-- Host-side base (port or frame) of a hypervisor mapping call. -/
def Call.host_base : Call → Option Nat
  | .xc_domain_ioport_mapping _ m _ _ => some m
  | .xc_domain_memory_mapping _ m _ _ => some m
  | _ => none

/-- The mapping flag of a hypervisor mapping call. -/
def Call.mapping_flag : Call → Option Nat
  | .xc_domain_ioport_mapping _ _ _ a => some a
  | .xc_domain_memory_mapping _ _ _ a => some a
  | _ => none

/-- The OpRegion state is `Set` exactly when the stored guest base is non-zero:
this is the test `if (igd_guest_opregion)` the file uses throughout. -/
def OpRegionSet (w : World) : Prop := w.igd_guest_opregion ≠ 0

instance (w : World) : Decidable (OpRegionSet w) := by
  unfold OpRegionSet; infer_instance

/-- The offset at which the code reads and patches the device ID:
`(unsigned char)rom->pcioffset + offsetof(struct pci_data, device)`. -/
def patched_device_offset (bios : List Byte) : Nat :=
  rom_pcioffset bios % 256 + offsetof_pci_data_device

/-! ### Invariants of the statics -/

/-- The upper 32 bits of `igd_host_opregion` are clear. -/
def HostUpperClear (w : World) : Prop := w.igd_host_opregion < 2 ^ 32

/-- The calls that belong to the two fallback strategies: the host option-ROM
loader (strategy 2) and the opening and mapping of host physical memory
(strategy 3). -/
def Call.is_fallback_strategy : Call → Bool
  | .pci_assign_dev_load_option_rom _ _ _ _ => true
  | .open_dev_mem => true
  | .mmap_dev_mem _ _ => true
  | _ => false

/-- The byte indices of `bios` the validation stage stores to, in program
order: the two bytes of `pd->device` when the comparison finds a mismatch, then
`bios[len - 1]` when the size check passes and the checksum is non-zero. -/
def vbios_patch_stores (s : XenPCIPassthroughState) (bios : List Byte) : List Nat :=
  let bios_size := bios.length
  if bios_size < sizeof_rom_header then []
  else if rom_pcioffset bios + sizeof_pci_data > bios_size then []
  else
    let pd := rom_pcioffset bios % 256
    let device_id := s.real_device.device_id % 2 ^ 16
    if read_u16 bios (pd + offsetof_pci_data_device) ≠ device_id then
      let bios1 := write_u16 bios (pd + offsetof_pci_data_device) device_id
      let len := rom_size bios1 * 512
      [pd + offsetof_pci_data_device, pd + offsetof_pci_data_device + 1] ++
        (if len > bios_size then []
         else if bios_checksum bios1 len ≠ 0 then [len - 1] else [])
    else []

/-! ### Sequences of calls into the file -/

/-- One call into the file by the device model, as far as the statics and the
trace are concerned (`igd_read_opregion` changes neither and is left out). -/
inductive Op where
  | register (dev : XenHostPCIDevice)
  | unregister (dev : XenHostPCIDevice)
  | setup_vga (s : XenPCIPassthroughState) (dev : XenHostPCIDevice)
  | write_opregion (s : XenPCIPassthroughState) (val : Nat)
  deriving DecidableEq, Repr

/-- The world after one call. -/
def Op.apply (env : Env) : Op → World → World
  | .register dev, w => (xen_pt_register_vga_regions env dev w).2
  | .unregister dev, w => (xen_pt_unregister_vga_regions env dev w).2
  | .setup_vga s dev, w => (xen_pt_setup_vga env s dev w).w
  | .write_opregion s val, w => igd_write_opregion env s val w

/-- The world after a sequence of calls, first call first. -/
def run_ops (env : Env) (ops : List Op) (w : World) : World :=
  ops.foldl (fun w op => op.apply env w) w

/-- The write of `val` made in world `w` was carried out, issued the memory
add-mapping call for `(gfn, mfn, 3)` after its host config read, and the
hypervisor answered that call with 0. -/
def WriteMapped (env : Env) (w : World) (s : XenPCIPassthroughState) (val gfn mfn : Nat) :
    Prop :=
  (igd_write_opregion env s val w).trace = w.trace ++
    [ Call.xen_host_pci_get_block s.real_device XEN_PCI_INTEL_OPREGION 4,
      Call.xc_domain_memory_mapping gfn mfn 3 DPCI_ADD_MAPPING ] ∧
  env.xc (w.trace ++ [Call.xen_host_pci_get_block s.real_device XEN_PCI_INTEL_OPREGION 4])
    (Call.xc_domain_memory_mapping gfn mfn 3 DPCI_ADD_MAPPING) = 0

/-! ## Helper lemmas -/

theorem vga_args_intact_cases {l : List VGARegion} (h : VgaArgsIntact l) :
    ∃ r0 r1 r2 : Int, l =
      [ { type := IORESOURCE_IO, guest_base_addr := 0x3B0, machine_base_addr := 0x3B0,
          size := 0xC, rc := r0 },
        { type := IORESOURCE_IO, guest_base_addr := 0x3C0, machine_base_addr := 0x3C0,
          size := 0x20, rc := r1 },
        { type := IORESOURCE_MEM, guest_base_addr := 0xA0, machine_base_addr := 0xA0,
          size := 0x20, rc := r2 } ] := by
  unfold VgaArgsIntact vga_args at h
  have hlen : l.length = 3 := by
    have := congrArg List.length h
    simpa using this
  obtain ⟨a, b, c, rfl⟩ := List.length_eq_three.mp hlen
  obtain ⟨ta, ga, ma, sa, ra⟩ := a
  obtain ⟨tb, gb, mb, sb, rb⟩ := b
  obtain ⟨tc, gc, mc, sc, rc⟩ := c
  simp [XC_PAGE_SHIFT] at h
  obtain ⟨⟨h1, h2, h3, h4⟩, ⟨h5, h6, h7, h8⟩, h9, h10, h11, h12⟩ := h
  subst_vars
  exact ⟨ra, rb, rc, rfl⟩

/-- With a hypervisor that never fails, the region loop issues the three calls
and runs to its end. -/
theorem vga_regions_loop_ok (env : Env) (flag : Nat) (w : World)
    (hxc : ∀ j, j < 3 →
      env.xc (w.trace ++ (vga_calls flag).take j) ((vga_calls flag).getD j Call.open_dev_mem) = 0)
    (hshape : VgaArgsIntact w.vga_args) :
    (vga_regions_loop env flag w.vga_args.length 0 w).1 = 0 ∧
    (vga_regions_loop env flag w.vga_args.length 0 w).2.trace = w.trace ++ vga_calls flag ∧
    (vga_regions_loop env flag w.vga_args.length 0 w).2.igd_guest_opregion
      = w.igd_guest_opregion ∧
    (vga_regions_loop env flag w.vga_args.length 0 w).2.igd_host_opregion
      = w.igd_host_opregion ∧
    VgaArgsIntact (vga_regions_loop env flag w.vga_args.length 0 w).2.vga_args := by
  obtain ⟨r0, r1, r2, hl⟩ := vga_args_intact_cases hshape
  have h0 := hxc 0 (by omega)
  have h1 := hxc 1 (by omega)
  have h2 := hxc 2 (by omega)
  simp [vga_calls] at h0 h1 h2
  simp [hl, vga_regions_loop, vga_region_call, h0, h1, h2, vga_calls, IORESOURCE_IO,
    IORESOURCE_MEM, VgaArgsIntact, vga_args, XC_PAGE_SHIFT]

/-- When call number `i` of the region loop is the first the hypervisor fails,
with status `rc`, the loop stops there: it returns `rc` having issued the calls
for regions `0..i` only, and leaves the OpRegion statics alone. -/
theorem vga_regions_loop_fail (env : Env) (flag : Nat) (w : World) (i : Nat) (rc : Int)
    (hshape : VgaArgsIntact w.vga_args) (hi : i < 3) (hrc : rc ≠ 0)
    (hprev : ∀ j, j < i →
      env.xc (w.trace ++ (vga_calls flag).take j) ((vga_calls flag).getD j Call.open_dev_mem) = 0)
    (hfail :
      env.xc (w.trace ++ (vga_calls flag).take i) ((vga_calls flag).getD i Call.open_dev_mem)
        = rc) :
    (vga_regions_loop env flag w.vga_args.length 0 w).1 = rc ∧
    (vga_regions_loop env flag w.vga_args.length 0 w).2.trace
      = w.trace ++ (vga_calls flag).take (i + 1) ∧
    (vga_regions_loop env flag w.vga_args.length 0 w).2.igd_guest_opregion
      = w.igd_guest_opregion ∧
    (vga_regions_loop env flag w.vga_args.length 0 w).2.igd_host_opregion
      = w.igd_host_opregion ∧
    VgaArgsIntact (vga_regions_loop env flag w.vga_args.length 0 w).2.vga_args := by
  obtain ⟨r0, r1, r2, hl⟩ := vga_args_intact_cases hshape
  have h3 : i = 0 ∨ i = 1 ∨ i = 2 := by omega
  rcases h3 with rfl | rfl | rfl
  · simp [vga_calls] at hfail
    simp [hl, vga_regions_loop, vga_region_call, vga_calls, IORESOURCE_IO, IORESOURCE_MEM,
      VgaArgsIntact, vga_args, XC_PAGE_SHIFT, hfail, hrc]
  · have h0 := hprev 0 (by omega)
    simp [vga_calls] at hfail h0
    simp [hl, vga_regions_loop, vga_region_call, vga_calls, IORESOURCE_IO, IORESOURCE_MEM,
      VgaArgsIntact, vga_args, XC_PAGE_SHIFT, hfail, hrc, h0]
  · have h0 := hprev 0 (by omega)
    have h1 := hprev 1 (by omega)
    simp [vga_calls] at hfail h0 h1
    simp [hl, vga_regions_loop, vga_region_call, vga_calls, IORESOURCE_IO, IORESOURCE_MEM,
      VgaArgsIntact, vga_args, XC_PAGE_SHIFT, hfail, hrc, h0, h1]

/-- The region loop never touches the OpRegion statics. -/
theorem vga_regions_loop_statics (env : Env) (flag n i : Nat) (w : World) :
    (vga_regions_loop env flag n i w).2.igd_guest_opregion = w.igd_guest_opregion ∧
    (vga_regions_loop env flag n i w).2.igd_host_opregion = w.igd_host_opregion := by
  induction n generalizing i w with
  | zero => simp [vga_regions_loop]
  | succ n ih =>
    unfold vga_regions_loop
    split
    · simp
    · next r hr =>
      simp only
      split
      · simp
      · rw [(ih _ _).1, (ih _ _).2]
        simp

theorem init_host_upper_clear : HostUpperClear World.init := by
  unfold HostUpperClear World.init
  norm_num

theorem register_host_upper_clear (env : Env) (dev : XenHostPCIDevice) (w : World)
    (h : HostUpperClear w) : HostUpperClear (xen_pt_register_vga_regions env dev w).2 := by
  unfold HostUpperClear at h ⊢
  unfold xen_pt_register_vga_regions
  split
  · exact h
  · simp only
    split
    · rw [(vga_regions_loop_statics _ _ _ _ _).2]; exact h
    · simp only
      rw [(vga_regions_loop_statics _ _ _ _ _).2]; exact h

theorem unregister_host_upper_clear (env : Env) (dev : XenHostPCIDevice) (w : World)
    (h : HostUpperClear w) : HostUpperClear (xen_pt_unregister_vga_regions env dev w).2 := by
  unfold HostUpperClear at h ⊢
  unfold xen_pt_unregister_vga_regions
  have h2 := (vga_regions_loop_statics env DPCI_REMOVE_MAPPING w.vga_args.length 0 w).2
  split
  · exact h
  · simp only
    split
    · rw [h2]; exact h
    · split
      · split <;> simp only <;> rw [h2] <;> exact h
      · simp only
        rw [h2]; exact h

theorem write_host_upper_clear (env : Env) (s : XenPCIPassthroughState) (v : Nat) (w : World)
    (h : HostUpperClear w) : HostUpperClear (igd_write_opregion env s v w) := by
  unfold HostUpperClear at h ⊢
  unfold igd_write_opregion
  have hd : w.igd_host_opregion / 2 ^ 32 = 0 := Nat.div_eq_of_lt h
  split
  · exact h
  · simp only [hd]
    split <;> simp only <;> omega

/-- For a qualifying device whose embedded image lacks the 0x55 0xAA magic,
`xen_pt_setup_vga` changes nothing and sets no error. -/
theorem xen_pt_setup_vga_bad_magic (env : Env) (s : XenPCIPassthroughState)
    (dev : XenHostPCIDevice) (w : World) (hq : env.is_igd_vga_passthrough dev = true)
    (hbad : byte_at env.VBIOS_RENOIR 0 ≠ 0x55 ∨ byte_at env.VBIOS_RENOIR 1 ≠ 0xaa) :
    xen_pt_setup_vga env s dev w = { s := s, w := w, errp := none } := by
  simp [xen_pt_setup_vga, xen_pt_setup_vga_embedded, hq, hbad]

/-- Storing a status in one entry keeps the array intact up to `rc`. -/
theorem set_rc_intact (l : List VGARegion) (i : Nat) (r : VGARegion) (rc : Int)
    (hr : l.get? i = some r) (h : VgaArgsIntact l) :
    VgaArgsIntact (l.set i { r with rc := rc }) := by
  unfold VgaArgsIntact at h ⊢
  rw [List.map_set]
  rw [← h]
  apply List.ext_getElem?
  intro j
  rw [List.getElem?_set]
  split
  · next hij =>
    subst hij
    simp only [List.length_map, List.getElem?_map]
    have hr1 : l[i]? = some r := by simpa using hr
    rw [hr1]
    have : i < l.length := by
      rcases Nat.lt_or_ge i l.length with hlt | hge
      · exact hlt
      · rw [List.getElem?_eq_none hge] at hr1; cases hr1
    simp [this]
  · rfl

/-- The region loop keeps the array intact up to `rc`. -/
theorem vga_regions_loop_intact (env : Env) (flag n i : Nat) (w : World)
    (h : VgaArgsIntact w.vga_args) :
    VgaArgsIntact (vga_regions_loop env flag n i w).2.vga_args := by
  induction n generalizing i w with
  | zero => simpa [vga_regions_loop] using h
  | succ n ih =>
    unfold vga_regions_loop
    split
    · exact h
    · next r hr =>
      simp only
      split
      · exact set_rc_intact _ _ _ _ hr h
      · exact ih _ _ (set_rc_intact _ _ _ _ hr h)

/-! ### Buffers and the validation stage -/

theorem byte_at_set (l : List Byte) (i j : Nat) (b : Byte) :
    byte_at (l.set i b) j = if i = j ∧ i < l.length then b else byte_at l j := by
  unfold byte_at
  simp only [List.getD_eq_getElem?_getD, List.getElem?_set]
  by_cases hij : i = j
  · subst hij
    by_cases hlt : i < l.length
    · simp [hlt]
    · simp [hlt, List.getElem?_eq_none (not_lt.mp hlt)]
  · simp [hij]

theorem write_u16_length (l : List Byte) (off v : Nat) :
    (write_u16 l off v).length = l.length := by
  simp [write_u16]

theorem byte_at_write_u16_ne (l : List Byte) (off v j : Nat) (h0 : j ≠ off) (h1 : j ≠ off + 1) :
    byte_at (write_u16 l off v) j = byte_at l j := by
  unfold write_u16
  rw [byte_at_set, byte_at_set]
  simp [Ne.symm h0, Ne.symm h1]

theorem rom_size_write_u16 (bios : List Byte) (v : Nat) :
    rom_size (write_u16 bios (patched_device_offset bios) v) = rom_size bios := by
  unfold rom_size patched_device_offset offsetof_pci_data_device
  rw [byte_at_write_u16_ne] <;> omega

/-- The three rejections of the validation stage, each with its error and
without any call, in terms of the comparison the code makes (device field read
at `patched_device_offset`). -/
theorem vbios_validate_patch_rejects (s : XenPCIPassthroughState) (bios : List Byte)
    (w : World) :
    (bios.length < 28 →
      (vbios_validate_patch s bios w).errp = some .image_corrupt_too_small ∧
      (vbios_validate_patch s bios w).w = w) ∧
    (28 ≤ bios.length → rom_pcioffset bios + 24 > bios.length →
      (vbios_validate_patch s bios w).errp = some .image_corrupt_bad_pcioffset ∧
      (vbios_validate_patch s bios w).w = w) ∧
    (28 ≤ bios.length → rom_pcioffset bios + 24 ≤ bios.length →
      read_u16 bios (patched_device_offset bios) ≠ s.real_device.device_id % 2 ^ 16 →
      rom_size bios * 512 > bios.length →
      (vbios_validate_patch s bios w).errp = some .image_corrupt_bad_size ∧
      (vbios_validate_patch s bios w).w = w) := by
  refine ⟨?_, ?_, ?_⟩
  · intro h
    simp [vbios_validate_patch, sizeof_rom_header, h]
  · intro h1 h2
    simp [vbios_validate_patch, sizeof_rom_header, sizeof_pci_data, not_lt.mpr h1, h2]
  · intro h1 h2 h3 h4
    have h3a : read_u16 bios (rom_pcioffset bios % 256 + offsetof_pci_data_device)
        ≠ s.real_device.device_id % 2 ^ 16 := h3
    have hs := rom_size_write_u16 bios (s.real_device.device_id % 2 ^ 16)
    unfold patched_device_offset at hs
    have e : (2 : Nat) ^ 16 = 65536 := by norm_num
    rw [e] at h3a hs
    simp [vbios_validate_patch, sizeof_rom_header, sizeof_pci_data, not_lt.mpr h1,
      not_lt.mpr h2, h3a, hs, h4]

/-- An image that meets none of the three rejection conditions (with the device
comparison the code makes) is accepted: no error, and the buffer as the stage
leaves it is written to guest physical memory at 0xC0000. -/
theorem vbios_validate_patch_accepts (s : XenPCIPassthroughState) (bios : List Byte)
    (w : World) (h1 : 28 ≤ bios.length) (h2 : rom_pcioffset bios + 24 ≤ bios.length)
    (h3 : read_u16 bios (patched_device_offset bios) ≠ s.real_device.device_id % 2 ^ 16 →
      rom_size bios * 512 ≤ bios.length) :
    (vbios_validate_patch s bios w).errp = none ∧
    (vbios_validate_patch s bios w).w = { w with trace := w.trace ++
      [Call.cpu_physical_memory_rw 0xc0000 (vbios_validate_patch s bios w).bios 1] } ∧
    (vbios_validate_patch s bios w).bios.length = bios.length := by
  have hs := rom_size_write_u16 bios (s.real_device.device_id % 2 ^ 16)
  unfold patched_device_offset at hs h3
  have e : (2 : Nat) ^ 16 = 65536 := by norm_num
  rw [e] at hs h3
  by_cases hm : read_u16 bios (rom_pcioffset bios % 256 + offsetof_pci_data_device)
      = s.real_device.device_id % 65536
  · simp [vbios_validate_patch, sizeof_rom_header, sizeof_pci_data, not_lt.mpr h1,
      not_lt.mpr h2, hm]
  · have h4 := h3 hm
    simp only [vbios_validate_patch, sizeof_rom_header, sizeof_pci_data, not_lt.mpr h1,
      gt_iff_lt, not_lt.mpr h2, if_false, ne_eq, e, hm, not_false_eq_true, if_true, hs,
      not_lt.mpr h4]
    split <;> simp [write_u16_length, List.take_of_length_le]

/-- The buffer the stage leaves when it is accepted after a mismatch found by
the code's comparison: the device ID stored at `patched_device_offset`, then
the last byte of the checksummed range lowered by the checksum if that is
non-zero. -/
theorem vbios_validate_patch_bios_of_mismatch (s : XenPCIPassthroughState)
    (bios : List Byte) (w : World) (h1 : 28 ≤ bios.length)
    (h2 : rom_pcioffset bios + 24 ≤ bios.length) (h3 : rom_size bios * 512 ≤ bios.length)
    (hm : read_u16 bios (patched_device_offset bios) ≠ s.real_device.device_id % 2 ^ 16) :
    (vbios_validate_patch s bios w).bios =
      if bios_checksum (write_u16 bios (patched_device_offset bios)
          (s.real_device.device_id % 2 ^ 16)) (rom_size bios * 512) ≠ 0 then
        (write_u16 bios (patched_device_offset bios) (s.real_device.device_id % 2 ^ 16)).set
          (rom_size bios * 512 - 1)
          (byte_at (write_u16 bios (patched_device_offset bios)
              (s.real_device.device_id % 2 ^ 16)) (rom_size bios * 512 - 1)
            - bios_checksum (write_u16 bios (patched_device_offset bios)
                (s.real_device.device_id % 2 ^ 16)) (rom_size bios * 512))
      else write_u16 bios (patched_device_offset bios) (s.real_device.device_id % 2 ^ 16) := by
  have hs := rom_size_write_u16 bios (s.real_device.device_id % 2 ^ 16)
  unfold patched_device_offset at hs hm ⊢
  have e : (2 : Nat) ^ 16 = 65536 := by norm_num
  rw [e] at hs hm ⊢
  simp only [vbios_validate_patch, sizeof_rom_header, sizeof_pci_data, not_lt.mpr h1,
    gt_iff_lt, not_lt.mpr h2, if_false, ne_eq, e, hm, not_false_eq_true, if_true, hs,
    not_lt.mpr h3]

/-- `memset` over the whole of a fresh RAM block leaves zeros, whatever the block
held. -/
theorem memset_zero_fresh (N : Nat) (f : Fin N → Byte) :
    memset_zero (List.ofFn f) N = List.replicate N 0 := by
  simp [memset_zero]

/-- The RAM region after `memset` and `memcpy` of the image: the image followed
by the zeros `memset` left in the rest of the region. -/
theorem embedded_guest_bios (bios : List Byte) (N : Nat) (f : Fin N → Byte) :
    memcpy (memset_zero (List.ofFn f) N) bios bios.length
      = bios ++ List.replicate (N - bios.length) 0 := by
  rw [memset_zero_fresh]
  simp [memcpy, List.drop_replicate]

/-- An image with the magic bytes has at least two bytes, and they are the
first two bytes of whatever is appended to it. -/
theorem magic_of_append (bios rest : List Byte) (h0 : byte_at bios 0 = 0x55)
    (h1 : byte_at bios 1 = 0xaa) :
    2 ≤ bios.length ∧ byte_at (bios ++ rest) 0 = 0x55 ∧ byte_at (bios ++ rest) 1 = 0xaa := by
  match bios, h0, h1 with
  | [], h0, _ => exact absurd h0 (by decide)
  | [a], _, h1 => simp [byte_at] at h1
  | a :: b :: t, h0, h1 =>
    simp only [byte_at, List.getD_cons_zero, List.getD_cons_succ] at h0 h1
    simp [byte_at, h0, h1]

/-- The embedded block on an image with the magic bytes that fits in 32 pages. -/
theorem xen_pt_setup_vga_embedded_ok (env : Env) (s : XenPCIPassthroughState) (w : World)
    (h0 : byte_at env.VBIOS_RENOIR 0 = 0x55) (h1 : byte_at env.VBIOS_RENOIR 1 = 0xaa)
    (hn : env.VBIOS_RENOIR.length ≤ 32 <<< XC_PAGE_SHIFT) :
    xen_pt_setup_vga_embedded env s w =
      { s := { s with
          rom := some (env.VBIOS_RENOIR ++
            List.replicate (32 <<< XC_PAGE_SHIFT - env.VBIOS_RENOIR.length) 0),
          has_rom := true },
        w := { w with trace := w.trace ++
          [ Call.memory_region_init_ram (32 <<< XC_PAGE_SHIFT),
            Call.cpu_physical_memory_rw 0xc0000 (env.VBIOS_RENOIR ++
              List.replicate (32 <<< XC_PAGE_SHIFT - env.VBIOS_RENOIR.length) 0) 1,
            Call.memory_region_set_address 0xc0000,
            Call.pci_register_bar PCI_ROM_SLOT PCI_BASE_ADDRESS_SPACE_MEMORY ] },
        errp := none } := by
  unfold xen_pt_setup_vga_embedded
  generalize 32 <<< XC_PAGE_SHIFT = N at hn ⊢
  obtain ⟨_, m0, m1⟩ := magic_of_append env.VBIOS_RENOIR
    (List.replicate (N - env.VBIOS_RENOIR.length) 0) h0 h1
  have hlen : (env.VBIOS_RENOIR ++ List.replicate (N - env.VBIOS_RENOIR.length) 0).length
      = N := by
    simp; omega
  simp only [embedded_guest_bios, h0, h1, m0, m1, ne_eq, not_true_eq_false, or_self,
    if_false, List.take_of_length_le (le_of_eq hlen), List.append_assoc, List.singleton_append]

/-- An image whose first two bytes are 0x55 0xAA passes the magic check. -/
theorem magic_of_take (bios : List Byte) (h : bios.take 2 = [0x55, 0xAA]) :
    byte_at bios 0 = 0x55 ∧ byte_at bios 1 = 0xaa := by
  match bios, h with
  | a :: b :: t, h =>
    simp only [List.take_succ_cons, List.take_zero, List.cons.injEq, and_true] at h
    simp [byte_at, h.1, h.2]

/-- For a qualifying device, `xen_pt_setup_vga` is the embedded block. -/
theorem xen_pt_setup_vga_qualifying (env : Env) (s : XenPCIPassthroughState)
    (dev : XenHostPCIDevice) (w : World) (hq : env.is_igd_vga_passthrough dev = true) :
    xen_pt_setup_vga env s dev w = xen_pt_setup_vga_embedded env s w := by
  simp [xen_pt_setup_vga, hq]

theorem byte_at_append_left (l r : List Byte) (i : Nat) (h : i < l.length) :
    byte_at (l ++ r) i = byte_at l i := by
  simp [byte_at, List.getD_eq_getElem?_getD, List.getElem?_append_left h]

theorem read_u16_append_left (l r : List Byte) (off : Nat) (h : off + 1 < l.length) :
    read_u16 (l ++ r) off = read_u16 l off := by
  unfold read_u16
  rw [byte_at_append_left l r off (by omega), byte_at_append_left l r (off + 1) h]

theorem byte_sum_append_left (l r : List Byte) (k : Nat) (h : k ≤ l.length) :
    byte_sum (l ++ r) k = byte_sum l k := by
  unfold byte_sum
  rw [List.take_append_of_le_length h]

/-- What acceptance by the validation stage says about the header. -/
theorem vbios_validate_patch_accepted_bounds (s : XenPCIPassthroughState)
    (bios : List Byte) (w : World) (hacc : (vbios_validate_patch s bios w).errp = none) :
    28 ≤ bios.length ∧ rom_pcioffset bios + 24 ≤ bios.length ∧
    (read_u16 bios (patched_device_offset bios) ≠ s.real_device.device_id % 2 ^ 16 →
      rom_size bios * 512 ≤ bios.length) := by
  obtain ⟨r1, r2, r3⟩ := vbios_validate_patch_rejects s bios w
  have h1 : 28 ≤ bios.length := by
    by_contra h
    have := (r1 (by omega)).1
    rw [hacc] at this
    cases this
  have h2 : rom_pcioffset bios + 24 ≤ bios.length := by
    by_contra h
    have := (r2 h1 (by omega)).1
    rw [hacc] at this
    cases this
  refine ⟨h1, h2, ?_⟩
  intro hm
  by_contra h
  have := (r3 h1 h2 hm (by omega)).1
  rw [hacc] at this
  cases this

/-- A non-zero checksum is the checksum of a non-empty range. -/
theorem bios_checksum_ne_zero_pos (bios : List Byte) (len : Nat)
    (h : bios_checksum bios len ≠ 0) : 0 < len := by
  rcases Nat.eq_zero_or_pos len with h0 | h0
  · exact absurd (by rw [h0]; rfl) h
  · exact h0

/-- When the comparison the code makes finds no mismatch, the stage leaves the
buffer as it is. -/
theorem vbios_validate_patch_bios_of_match (s : XenPCIPassthroughState)
    (bios : List Byte) (w : World)
    (hm : read_u16 bios (patched_device_offset bios) = s.real_device.device_id % 2 ^ 16) :
    (vbios_validate_patch s bios w).bios = bios := by
  unfold patched_device_offset at hm
  have e : (2 : Nat) ^ 16 = 65536 := by norm_num
  rw [e] at hm
  unfold vbios_validate_patch
  simp only [e, hm, ne_eq, not_true_eq_false, if_false]
  split
  · rfl
  · split <;> rfl

/-- Every index the validation stage stores to lies inside the buffer. -/
theorem vbios_patch_stores_in_bounds (s : XenPCIPassthroughState) (bios : List Byte) :
    ∀ i ∈ vbios_patch_stores s bios, i < bios.length := by
  intro i hi
  unfold vbios_patch_stores at hi
  simp only [sizeof_rom_header, sizeof_pci_data, offsetof_pci_data_device] at hi
  split at hi
  · simp at hi
  · split at hi
    · simp at hi
    · next h1 h2 =>
      have hmod : rom_pcioffset bios % 256 ≤ rom_pcioffset bios := Nat.mod_le _ _
      split at hi
      · simp only [List.cons_append, List.nil_append, List.mem_cons] at hi
        rcases hi with rfl | rfl | hi
        · omega
        · omega
        · split at hi
          · simp at hi
          · next h4 =>
            split at hi
            · next hc =>
              have hpos := bios_checksum_ne_zero_pos _ _ hc
              simp only [List.mem_singleton] at hi
              omega
            · simp at hi
      · simp at hi

/-- The stores of the stage when it accepts after a mismatch. -/
theorem vbios_patch_stores_of_mismatch (s : XenPCIPassthroughState) (bios : List Byte)
    (h1 : 28 ≤ bios.length) (h2 : rom_pcioffset bios + 24 ≤ bios.length)
    (h3 : rom_size bios * 512 ≤ bios.length)
    (hm : read_u16 bios (patched_device_offset bios) ≠ s.real_device.device_id % 2 ^ 16) :
    vbios_patch_stores s bios =
      [patched_device_offset bios, patched_device_offset bios + 1] ++
        (if bios_checksum (write_u16 bios (patched_device_offset bios)
            (s.real_device.device_id % 2 ^ 16)) (rom_size bios * 512) ≠ 0
         then [rom_size bios * 512 - 1] else []) := by
  have hs := rom_size_write_u16 bios (s.real_device.device_id % 2 ^ 16)
  unfold patched_device_offset at hs hm ⊢
  have e : (2 : Nat) ^ 16 = 65536 := by norm_num
  rw [e] at hs hm ⊢
  simp only [vbios_patch_stores, sizeof_rom_header, sizeof_pci_data, not_lt.mpr h1,
    gt_iff_lt, not_lt.mpr h2, if_false, ne_eq, e, hm, not_false_eq_true, if_true, hs,
    not_lt.mpr h3]

/-- The stage stores nothing when the comparison finds no mismatch. -/
theorem vbios_patch_stores_of_match (s : XenPCIPassthroughState) (bios : List Byte)
    (hm : read_u16 bios (patched_device_offset bios) = s.real_device.device_id % 2 ^ 16) :
    vbios_patch_stores s bios = [] := by
  unfold patched_device_offset at hm
  have e : (2 : Nat) ^ 16 = 65536 := by norm_num
  rw [e] at hm
  unfold vbios_patch_stores
  simp only [e, hm, ne_eq, not_true_eq_false, if_false]
  split
  · rfl
  · split <;> rfl

/-! ### Calls in sequence -/

theorem register_statics (env : Env) (dev : XenHostPCIDevice) (w : World) :
    (xen_pt_register_vga_regions env dev w).2.igd_guest_opregion = w.igd_guest_opregion ∧
    (xen_pt_register_vga_regions env dev w).2.igd_host_opregion = w.igd_host_opregion := by
  have h := vga_regions_loop_statics env DPCI_ADD_MAPPING w.vga_args.length 0 w
  unfold xen_pt_register_vga_regions
  split
  · exact ⟨rfl, rfl⟩
  · simp only
    split
    · exact h
    · exact h

theorem unregister_statics (env : Env) (dev : XenHostPCIDevice) (w : World) :
    (xen_pt_unregister_vga_regions env dev w).2.igd_guest_opregion = w.igd_guest_opregion ∧
    (xen_pt_unregister_vga_regions env dev w).2.igd_host_opregion = w.igd_host_opregion := by
  have h := vga_regions_loop_statics env DPCI_REMOVE_MAPPING w.vga_args.length 0 w
  unfold xen_pt_unregister_vga_regions
  split
  · exact ⟨rfl, rfl⟩
  · simp only
    split
    · exact h
    · split
      · split <;> exact h
      · exact h

/-- `xen_pt_setup_vga` only appends to the trace: the statics are untouched. -/
theorem setup_statics (env : Env) (s : XenPCIPassthroughState) (dev : XenHostPCIDevice)
    (w : World) :
    (xen_pt_setup_vga env s dev w).w.igd_guest_opregion = w.igd_guest_opregion ∧
    (xen_pt_setup_vga env s dev w).w.igd_host_opregion = w.igd_host_opregion ∧
    (xen_pt_setup_vga env s dev w).w.vga_args = w.vga_args := by
  unfold xen_pt_setup_vga
  split
  · exact ⟨rfl, rfl, rfl⟩
  · rw [if_pos (by decide)]
    unfold xen_pt_setup_vga_embedded
    simp only
    split
    · exact ⟨rfl, rfl, rfl⟩
    · split <;> exact ⟨rfl, rfl, rfl⟩

theorem write_vga_args (env : Env) (s : XenPCIPassthroughState) (v : Nat) (w : World) :
    (igd_write_opregion env s v w).vga_args = w.vga_args := by
  unfold igd_write_opregion
  split
  · rfl
  · simp only
    split <;> rfl

/-- A write made in the Set state changes nothing. -/
theorem write_of_set (env : Env) (s : XenPCIPassthroughState) (v : Nat) (w : World)
    (h : w.igd_guest_opregion ≠ 0) : igd_write_opregion env s v w = w := by
  unfold igd_write_opregion
  rw [if_pos h]

/-- A write that leaves a non-zero guest base behind was mapped with the frames
of the bases it stored. -/
theorem write_mapped_of_set (env : Env) (s : XenPCIPassthroughState) (v : Nat) (w : World)
    (h0 : w.igd_guest_opregion = 0)
    (h1 : (igd_write_opregion env s v w).igd_guest_opregion ≠ 0) :
    WriteMapped env w s v ((igd_write_opregion env s v w).igd_guest_opregion >>> 12)
      ((igd_write_opregion env s v w).igd_host_opregion >>> 12) := by
  unfold WriteMapped
  unfold igd_write_opregion at h1 ⊢
  simp only [h0, ne_eq, not_true_eq_false, if_false, XC_PAGE_SHIFT,
    XEN_PCI_INTEL_OPREGION_PAGES] at h1 ⊢
  split at h1
  · simp at h1
  · next hret =>
    rw [if_neg hret]
    exact ⟨rfl, not_not.mp hret⟩

/-- Once the state is Set, no call changes the stored bases. -/
theorem op_apply_statics_of_set (env : Env) (op : Op) (w : World)
    (h : w.igd_guest_opregion ≠ 0) :
    (op.apply env w).igd_guest_opregion = w.igd_guest_opregion ∧
    (op.apply env w).igd_host_opregion = w.igd_host_opregion := by
  cases op with
  | register dev => exact register_statics env dev w
  | unregister dev => exact unregister_statics env dev w
  | setup_vga s dev => exact ⟨(setup_statics env s dev w).1, (setup_statics env s dev w).2.1⟩
  | write_opregion s v =>
    simp only [Op.apply]
    rw [write_of_set env s v w h]
    exact ⟨rfl, rfl⟩

/-- Every call keeps `vga_args` intact up to `rc`. -/
theorem op_apply_intact (env : Env) (op : Op) (w : World) (h : VgaArgsIntact w.vga_args) :
    VgaArgsIntact (op.apply env w).vga_args := by
  cases op with
  | register dev =>
    simp only [Op.apply]
    unfold xen_pt_register_vga_regions
    split
    · exact h
    · simp only
      split <;> exact vga_regions_loop_intact _ _ _ _ _ h
  | unregister dev =>
    simp only [Op.apply]
    unfold xen_pt_unregister_vga_regions
    split
    · exact h
    · simp only
      split
      · exact vga_regions_loop_intact _ _ _ _ _ h
      · split
        · split <;> exact vga_regions_loop_intact _ _ _ _ _ h
        · exact vga_regions_loop_intact _ _ _ _ _ h
  | setup_vga s dev =>
    simp only [Op.apply]
    rw [(setup_statics env s dev w).2.2]
    exact h
  | write_opregion s v =>
    simp only [Op.apply]
    rw [write_vga_args]
    exact h

theorem run_ops_append (env : Env) (l : List Op) (op : Op) (w : World) :
    run_ops env (l ++ [op]) w = op.apply env (run_ops env l w) := by
  simp [run_ops, List.foldl_append]

theorem run_ops_intact (env : Env) (ops : List Op) (w : World)
    (h : VgaArgsIntact w.vga_args) : VgaArgsIntact (run_ops env ops w).vga_args := by
  induction ops using List.reverseRecOn with
  | nil => exact h
  | append_singleton l op ih =>
    rw [run_ops_append]
    exact op_apply_intact env op _ ih

theorem run_ops_statics_of_set (env : Env) (ops : List Op) (w : World)
    (h : w.igd_guest_opregion ≠ 0) :
    (run_ops env ops w).igd_guest_opregion = w.igd_guest_opregion ∧
    (run_ops env ops w).igd_host_opregion = w.igd_host_opregion := by
  induction ops using List.reverseRecOn with
  | nil => exact ⟨rfl, rfl⟩
  | append_singleton l op ih =>
    rw [run_ops_append]
    have h1 : (run_ops env l w).igd_guest_opregion ≠ 0 := by rw [ih.1]; exact h
    obtain ⟨a, b⟩ := op_apply_statics_of_set env op _ h1
    exact ⟨a.trans ih.1, b.trans ih.2⟩

/-- From program start, a non-zero stored guest base comes from an earlier
write that was mapped with the frames of the stored bases. -/
theorem run_ops_provenance (env : Env) (ops : List Op)
    (h : (run_ops env ops World.init).igd_guest_opregion ≠ 0) :
    ∃ ops1 s v ops2, ops = ops1 ++ Op.write_opregion s v :: ops2 ∧
      WriteMapped env (run_ops env ops1 World.init) s v
        ((run_ops env ops World.init).igd_guest_opregion >>> 12)
        ((run_ops env ops World.init).igd_host_opregion >>> 12) := by
  induction ops using List.reverseRecOn with
  | nil => exact absurd rfl h
  | append_singleton l op ih =>
    rw [run_ops_append] at h ⊢
    by_cases hg : (run_ops env l World.init).igd_guest_opregion = 0
    · cases op with
      | register dev =>
        exact absurd ((register_statics env dev _).1.trans hg) h
      | unregister dev =>
        exact absurd ((unregister_statics env dev _).1.trans hg) h
      | setup_vga s dev =>
        exact absurd ((setup_statics env s dev _).1.trans hg) h
      | write_opregion s v =>
        exact ⟨l, s, v, [], rfl, write_mapped_of_set env s v _ hg h⟩
    · obtain ⟨ops1, s, v, ops2, e, hm⟩ := ih hg
      obtain ⟨a, b⟩ := op_apply_statics_of_set env op _ hg
      refine ⟨ops1, s, v, ops2 ++ [op], ?_, ?_⟩
      · rw [e]; simp
      · rw [a, b]; exact hm

/-- Whatever the hypervisor answers, the region loop either fails at some
region `i`, having issued the calls of regions `0..i`, or runs to its end,
having issued all three. -/
theorem vga_regions_loop_trace (env : Env) (flag : Nat) (w : World)
    (hshape : VgaArgsIntact w.vga_args) :
    ((vga_regions_loop env flag w.vga_args.length 0 w).1 ≠ 0 ∧
      ∃ i, i < 3 ∧ (vga_regions_loop env flag w.vga_args.length 0 w).2.trace
        = w.trace ++ (vga_calls flag).take (i + 1)) ∨
    ((vga_regions_loop env flag w.vga_args.length 0 w).1 = 0 ∧
      (vga_regions_loop env flag w.vga_args.length 0 w).2.trace
        = w.trace ++ vga_calls flag) := by
  by_cases h0 : env.xc (w.trace ++ (vga_calls flag).take 0)
      ((vga_calls flag).getD 0 Call.open_dev_mem) = 0
  · by_cases h1 : env.xc (w.trace ++ (vga_calls flag).take 1)
        ((vga_calls flag).getD 1 Call.open_dev_mem) = 0
    · by_cases h2 : env.xc (w.trace ++ (vga_calls flag).take 2)
          ((vga_calls flag).getD 2 Call.open_dev_mem) = 0
      · right
        have hall : ∀ j, j < 3 → env.xc (w.trace ++ (vga_calls flag).take j)
            ((vga_calls flag).getD j Call.open_dev_mem) = 0 := by
          intro j hj
          have : j = 0 ∨ j = 1 ∨ j = 2 := by omega
          rcases this with rfl | rfl | rfl
          · exact h0
          · exact h1
          · exact h2
        obtain ⟨a1, a2, _⟩ := vga_regions_loop_ok env flag w hall hshape
        exact ⟨a1, a2⟩
      · left
        obtain ⟨a1, a2, _⟩ := vga_regions_loop_fail env flag w 2 _ hshape (by omega) h2
          (fun j hj => by
            have : j = 0 ∨ j = 1 := by omega
            rcases this with rfl | rfl
            · exact h0
            · exact h1) rfl
        exact ⟨by rw [a1]; exact h2, 2, by omega, a2⟩
    · left
      obtain ⟨a1, a2, _⟩ := vga_regions_loop_fail env flag w 1 _ hshape (by omega) h1
        (fun j hj => by
          have : j = 0 := by omega
          subst this
          exact h0) rfl
      exact ⟨by rw [a1]; exact h1, 1, by omega, a2⟩
  · left
    obtain ⟨a1, a2, _⟩ := vga_regions_loop_fail env flag w 0 _ hshape (by omega) h0
      (fun j hj => by omega) rfl
    exact ⟨by rw [a1]; exact h0, 0, by omega, a2⟩

/-- Whatever the hypervisor answers, every call unregister issues is one of the
three VGA remove-mapping calls or, in the Set state only, the memory
remove-mapping call for the frames of the stored bases and 3 pages. -/
theorem unregister_new_calls (env : Env) (dev : XenHostPCIDevice) (w : World)
    (hshape : VgaArgsIntact w.vga_args) :
    ∀ c ∈ (xen_pt_unregister_vga_regions env dev w).2.trace.drop w.trace.length,
      c ∈ vga_calls DPCI_REMOVE_MAPPING ∨
      (w.igd_guest_opregion ≠ 0 ∧
        c = Call.xc_domain_memory_mapping (w.igd_guest_opregion >>> 12)
          (w.igd_host_opregion >>> 12) 3 DPCI_REMOVE_MAPPING) := by
  intro c hc
  obtain ⟨sg, sh⟩ := vga_regions_loop_statics env DPCI_REMOVE_MAPPING w.vga_args.length 0 w
  unfold xen_pt_unregister_vga_regions at hc
  split at hc
  · simp at hc
  · simp only at hc
    rcases vga_regions_loop_trace env DPCI_REMOVE_MAPPING w hshape with
      ⟨hne, i, _, ht⟩ | ⟨hz, ht⟩
    · rw [if_pos hne, ht, List.drop_left] at hc
      exact Or.inl (List.mem_of_mem_take hc)
    · rw [if_neg (not_not.mpr hz)] at hc
      rw [sg, sh] at hc
      split at hc
      · next hset =>
        have hc2 : c ∈ vga_calls DPCI_REMOVE_MAPPING ++
            [Call.xc_domain_memory_mapping (w.igd_guest_opregion >>> XC_PAGE_SHIFT)
              (w.igd_host_opregion >>> XC_PAGE_SHIFT) 3 DPCI_REMOVE_MAPPING] := by
          split at hc <;> simpa [ht] using hc
        rcases List.mem_append.mp hc2 with h | h
        · exact Or.inl h
        · exact Or.inr ⟨hset, by simpa [XC_PAGE_SHIFT] using h⟩
      · rw [ht, List.drop_left] at hc
        exact Or.inl hc

/-- In the Set state, with the three VGA remove-mapping calls accepted,
unregister issues them and then the OpRegion remove-mapping call. -/
theorem unregister_set_trace (env : Env) (dev : XenHostPCIDevice) (w : World)
    (hq : env.is_igd_vga_passthrough dev = true)
    (hshape : VgaArgsIntact w.vga_args)
    (hset : w.igd_guest_opregion ≠ 0)
    (hvga : ∀ j, j < 3 →
      env.xc (w.trace ++ (vga_calls DPCI_REMOVE_MAPPING).take j)
        ((vga_calls DPCI_REMOVE_MAPPING).getD j Call.open_dev_mem) = 0) :
    (xen_pt_unregister_vga_regions env dev w).2.trace
      = w.trace ++ vga_calls DPCI_REMOVE_MAPPING ++
          [ Call.xc_domain_memory_mapping (w.igd_guest_opregion >>> 12)
              (w.igd_host_opregion >>> 12) 3 DPCI_REMOVE_MAPPING ] := by
  obtain ⟨b1, b2, b3, b4, _⟩ := vga_regions_loop_ok env DPCI_REMOVE_MAPPING w hvga hshape
  have hg : (vga_regions_loop env DPCI_REMOVE_MAPPING w.vga_args.length 0 w).2.igd_guest_opregion
      ≠ 0 := by
    rw [b3]; exact hset
  unfold xen_pt_unregister_vga_regions
  simp only [hq, Bool.not_true, Bool.false_eq_true, if_false, b1, ne_eq, not_true_eq_false,
    hg, not_false_eq_true, if_true, b2, b3, b4, XC_PAGE_SHIFT]
  by_cases hret : env.xc (w.trace ++ vga_calls DPCI_REMOVE_MAPPING)
      (Call.xc_domain_memory_mapping (w.igd_guest_opregion >>> 12)
        (w.igd_host_opregion >>> 12) 3 DPCI_REMOVE_MAPPING) = 0
  · simp [hret, hset]
  · simp [hret, hset]

/-- In the Unset state, with the three VGA remove-mapping calls accepted,
unregister issues exactly these three calls. -/
theorem unregister_unset_trace (env : Env) (dev : XenHostPCIDevice) (w : World)
    (hq : env.is_igd_vga_passthrough dev = true)
    (hshape : VgaArgsIntact w.vga_args)
    (hunset : w.igd_guest_opregion = 0)
    (hvga : ∀ j, j < 3 →
      env.xc (w.trace ++ (vga_calls DPCI_REMOVE_MAPPING).take j)
        ((vga_calls DPCI_REMOVE_MAPPING).getD j Call.open_dev_mem) = 0) :
    (xen_pt_unregister_vga_regions env dev w).2.trace
      = w.trace ++ vga_calls DPCI_REMOVE_MAPPING := by
  obtain ⟨b1, b2, b3, b4, _⟩ := vga_regions_loop_ok env DPCI_REMOVE_MAPPING w hvga hshape
  have hg : (vga_regions_loop env DPCI_REMOVE_MAPPING w.vga_args.length 0 w).2.igd_guest_opregion
      = 0 := by
    rw [b3]; exact hunset
  unfold xen_pt_unregister_vga_regions
  simp only [hq, Bool.not_true, Bool.false_eq_true, if_false, b1, ne_eq, not_true_eq_false,
    hg, b2]

theorem init_intact : VgaArgsIntact World.init.vga_args := by decide

/-- The embedded block depends on the environment through the embedded image
only: what the fresh RAM held is wiped by `memset`. -/
theorem xen_pt_setup_vga_embedded_congr (env env2 : Env) (s : XenPCIPassthroughState)
    (w : World) (himg : env2.VBIOS_RENOIR = env.VBIOS_RENOIR) :
    xen_pt_setup_vga_embedded env2 s w = xen_pt_setup_vga_embedded env s w := by
  unfold xen_pt_setup_vga_embedded
  simp only [memset_zero_fresh, himg]

/-- C1: for a qualifying device and a hypervisor that returns 0 for every call,
`xen_pt_register_vga_regions` issues exactly the three add-mapping calls
ioport(0x3B0, 0x3B0, 0xC), ioport(0x3C0, 0x3C0, 0x20), memory(0xA0, 0xA0, 0x20) in
this order; a following `xen_pt_unregister_vga_regions` with the OpRegion state
Unset issues exactly the three remove-mapping calls of the same kind and
arguments in the same order; both return 0, and every call issued has its guest
base equal to its host base. -/
theorem C1_register_unregister_vga_symmetric (env : Env) (dev : XenHostPCIDevice) (w : World)
    (hq : env.is_igd_vga_passthrough dev = true)
    (hxc : ∀ hist c, env.xc hist c = 0)
    (hshape : VgaArgsIntact w.vga_args)
    (hunset : ¬ OpRegionSet w) :
    (xen_pt_register_vga_regions env dev w).1 = 0 ∧
    (xen_pt_register_vga_regions env dev w).2.trace = w.trace ++
      [ Call.xc_domain_ioport_mapping 0x3B0 0x3B0 0xC DPCI_ADD_MAPPING,
        Call.xc_domain_ioport_mapping 0x3C0 0x3C0 0x20 DPCI_ADD_MAPPING,
        Call.xc_domain_memory_mapping 0xA0 0xA0 0x20 DPCI_ADD_MAPPING ] ∧
    (xen_pt_unregister_vga_regions env dev (xen_pt_register_vga_regions env dev w).2).1 = 0 ∧
    (xen_pt_unregister_vga_regions env dev (xen_pt_register_vga_regions env dev w).2).2.trace
      = (xen_pt_register_vga_regions env dev w).2.trace ++
      [ Call.xc_domain_ioport_mapping 0x3B0 0x3B0 0xC DPCI_REMOVE_MAPPING,
        Call.xc_domain_ioport_mapping 0x3C0 0x3C0 0x20 DPCI_REMOVE_MAPPING,
        Call.xc_domain_memory_mapping 0xA0 0xA0 0x20 DPCI_REMOVE_MAPPING ] ∧
    ∀ c ∈ (xen_pt_unregister_vga_regions env dev
        (xen_pt_register_vga_regions env dev w).2).2.trace.drop w.trace.length,
      ∃ b, c.guest_base = some b ∧ c.host_base = some b := by
  obtain ⟨a1, a2, a3, a4, a5⟩ :=
    vga_regions_loop_ok env DPCI_ADD_MAPPING w (fun _ _ => hxc _ _) hshape
  have hreg : xen_pt_register_vga_regions env dev w
      = (0, (vga_regions_loop env DPCI_ADD_MAPPING w.vga_args.length 0 w).2) := by
    simp [xen_pt_register_vga_regions, hq, a1]
  obtain ⟨b1, b2, b3, b4, b5⟩ := vga_regions_loop_ok env DPCI_REMOVE_MAPPING
    (vga_regions_loop env DPCI_ADD_MAPPING w.vga_args.length 0 w).2 (fun _ _ => hxc _ _) a5
  have hg : (vga_regions_loop env DPCI_REMOVE_MAPPING
      (vga_regions_loop env DPCI_ADD_MAPPING w.vga_args.length 0 w).2.vga_args.length 0
      (vga_regions_loop env DPCI_ADD_MAPPING w.vga_args.length 0 w).2).2.igd_guest_opregion
        = 0 := by
    rw [b3, a3]
    simpa [OpRegionSet] using hunset
  have hunreg : xen_pt_unregister_vga_regions env dev
      (vga_regions_loop env DPCI_ADD_MAPPING w.vga_args.length 0 w).2
      = (0, (vga_regions_loop env DPCI_REMOVE_MAPPING
          (vga_regions_loop env DPCI_ADD_MAPPING w.vga_args.length 0 w).2.vga_args.length 0
          (vga_regions_loop env DPCI_ADD_MAPPING w.vga_args.length 0 w).2).2) := by
    simp [xen_pt_unregister_vga_regions, hq, b1, hg]
  rw [hreg, hunreg]
  refine ⟨rfl, ?_, rfl, ?_, ?_⟩
  · rw [a2]; rfl
  · rw [b2]; rfl
  · rw [b2, a2]
    intro c hc
    simp [vga_calls] at hc
    rcases hc with rfl | rfl | rfl | rfl | rfl | rfl <;> simp [Call.guest_base, Call.host_base]

/-- C1 at program start, with a hypervisor that accepts every call. -/
theorem C1_register_unregister_vga_symmetric_witness :
    (xen_pt_register_vga_regions (Env.ok 0 []) (dev0 0) World.init).1 = 0 ∧
    (xen_pt_unregister_vga_regions (Env.ok 0 []) (dev0 0)
      (xen_pt_register_vga_regions (Env.ok 0 []) (dev0 0) World.init).2).2.trace
      = [ Call.xc_domain_ioport_mapping 0x3B0 0x3B0 0xC DPCI_ADD_MAPPING,
          Call.xc_domain_ioport_mapping 0x3C0 0x3C0 0x20 DPCI_ADD_MAPPING,
          Call.xc_domain_memory_mapping 0xA0 0xA0 0x20 DPCI_ADD_MAPPING,
          Call.xc_domain_ioport_mapping 0x3B0 0x3B0 0xC DPCI_REMOVE_MAPPING,
          Call.xc_domain_ioport_mapping 0x3C0 0x3C0 0x20 DPCI_REMOVE_MAPPING,
          Call.xc_domain_memory_mapping 0xA0 0xA0 0x20 DPCI_REMOVE_MAPPING ] := by
  have h := C1_register_unregister_vga_symmetric (Env.ok 0 []) (dev0 0) World.init rfl
    (fun _ _ => rfl) (by decide) (by decide)
  refine ⟨h.1, ?_⟩
  rw [h.2.2.2.1, h.2.1]
  rfl

/-- The world a write leaves when the state is Unset, the upper half of
`igd_host_opregion` is clear and host config space reports `h`. -/
theorem igd_write_opregion_unset (env : Env) (s : XenPCIPassthroughState) (w : World)
    (v h : Nat) (hunset : ¬ OpRegionSet w) (hhost : w.igd_host_opregion < 2 ^ 32)
    (hv : v < 2 ^ 32) (hh : h < 2 ^ 32)
    (hcfg : env.host_pci_block w.trace s.real_device XEN_PCI_INTEL_OPREGION 4 = h) :
    igd_write_opregion env s v w =
      if env.xc (w.trace ++ [Call.xen_host_pci_get_block s.real_device XEN_PCI_INTEL_OPREGION 4])
          (Call.xc_domain_memory_mapping (((v &&& 0xFFFFF000) ||| (h &&& 0xFFF)) >>> 12)
            (h >>> 12) 3 DPCI_ADD_MAPPING) ≠ 0 then
        { w with igd_host_opregion := h, igd_guest_opregion := 0,
                 trace := w.trace ++
                  [ Call.xen_host_pci_get_block s.real_device XEN_PCI_INTEL_OPREGION 4,
                    Call.xc_domain_memory_mapping
                      (((v &&& 0xFFFFF000) ||| (h &&& 0xFFF)) >>> 12) (h >>> 12) 3
                      DPCI_ADD_MAPPING ] }
      else
        { w with igd_host_opregion := h,
                 igd_guest_opregion := (v &&& 0xFFFFF000) ||| (h &&& 0xFFF),
                 trace := w.trace ++
                  [ Call.xen_host_pci_get_block s.real_device XEN_PCI_INTEL_OPREGION 4,
                    Call.xc_domain_memory_mapping
                      (((v &&& 0xFFFFF000) ||| (h &&& 0xFFF)) >>> 12) (h >>> 12) 3
                      DPCI_ADD_MAPPING ] } := by
  have hg : w.igd_guest_opregion = 0 := by simpa [OpRegionSet] using hunset
  have hd : w.igd_host_opregion / 2 ^ 32 = 0 := Nat.div_eq_of_lt hhost
  have hm : h % 2 ^ 32 = h := Nat.mod_eq_of_lt hh
  have hvm : v % 2 ^ 32 = v := Nat.mod_eq_of_lt hv
  unfold igd_write_opregion
  simp only [hg, hcfg, hd, hm, hvm, XEN_PCI_INTEL_OPREGION_MASK, XC_PAGE_SHIFT,
    XEN_PCI_INTEL_OPREGION_PAGES]
  norm_num

/-- The guest base a write derives fits in 32 bits. -/
theorem opregion_guest_lt (v h : Nat) (hv : v < 2 ^ 32) :
    (v &&& 0xFFFFF000) ||| (h &&& 0xFFF) < 2 ^ 32 := by
  apply Nat.or_lt_two_pow
  · exact lt_of_le_of_lt Nat.and_le_left hv
  · exact lt_of_le_of_lt Nat.and_le_right (by norm_num)

/-- C2: from an Unset OpRegion state, for every 32-bit value `v` written and
every host base `h` reported by host config space, if the hypervisor accepts the
add-mapping call then `igd_write_opregion` issues, after the host config read,
exactly one memory add-mapping call (g >> 12, h >> 12, 3) with
g = (v & ~0xFFF) | (h & 0xFFF), and a following `igd_read_opregion` returns g;
`igd_read_opregion` returns 0 in every Unset state. -/
theorem C2_opregion_write_maps_and_reads_back (env : Env) (s : XenPCIPassthroughState)
    (w : World) (v h : Nat)
    (hunset : ¬ OpRegionSet w) (hhost : w.igd_host_opregion < 2 ^ 32)
    (hv : v < 2 ^ 32) (hh : h < 2 ^ 32)
    (hcfg : env.host_pci_block w.trace s.real_device XEN_PCI_INTEL_OPREGION 4 = h)
    (hok : env.xc
      (w.trace ++ [Call.xen_host_pci_get_block s.real_device XEN_PCI_INTEL_OPREGION 4])
      (Call.xc_domain_memory_mapping (((v &&& 0xFFFFF000) ||| (h &&& 0xFFF)) >>> 12)
        (h >>> 12) 3 DPCI_ADD_MAPPING) = 0) :
    (igd_write_opregion env s v w).trace = w.trace ++
      [ Call.xen_host_pci_get_block s.real_device XEN_PCI_INTEL_OPREGION 4,
        Call.xc_domain_memory_mapping (((v &&& 0xFFFFF000) ||| (h &&& 0xFFF)) >>> 12)
          (h >>> 12) 3 DPCI_ADD_MAPPING ] ∧
    igd_read_opregion s (igd_write_opregion env s v w) = (v &&& 0xFFFFF000) ||| (h &&& 0xFFF) ∧
    ∀ (s1 : XenPCIPassthroughState) (w1 : World), ¬ OpRegionSet w1 →
      igd_read_opregion s1 w1 = 0 := by
  rw [igd_write_opregion_unset env s w v h hunset hhost hv hh hcfg]
  rw [if_neg (by simp [hok])]
  refine ⟨rfl, ?_, ?_⟩
  · unfold igd_read_opregion
    have hlt := opregion_guest_lt v h hv
    split
    · next h0 => exact h0.symm
    · exact Nat.mod_eq_of_lt hlt
  · intro s1 w1 h1
    simp [OpRegionSet] at h1
    simp [igd_read_opregion, h1]

/-- C2 on the end-to-end example: writing 0x12345000 while host config space
reports 0xABCDE800 maps (0x12345, 0xABCDE, 3) and reads back 0x12345800. -/
theorem C2_opregion_write_maps_and_reads_back_witness :
    (igd_write_opregion (Env.ok 0xABCDE800 []) (s0 0) 0x12345000 World.init).trace =
      [ Call.xen_host_pci_get_block (dev0 0) XEN_PCI_INTEL_OPREGION 4,
        Call.xc_domain_memory_mapping 0x12345 0xABCDE 3 DPCI_ADD_MAPPING ] ∧
    igd_read_opregion (s0 0)
      (igd_write_opregion (Env.ok 0xABCDE800 []) (s0 0) 0x12345000 World.init) = 0x12345800 := by
  have h := C2_opregion_write_maps_and_reads_back (Env.ok 0xABCDE800 []) (s0 0) World.init
    0x12345000 0xABCDE800 (by decide) (by decide) (by decide) (by decide) rfl rfl
  exact ⟨h.1, h.2.1⟩

/-- C3 as stated fails: a first write of 0 while host config space reports the
page-aligned base 0xABCDE000 has its add-mapping call accepted, yet it derives
the guest base 0, which is the Unset marker; the second write of 0x12345000 is
then not ignored: it reads host config space and calls the hypervisor again,
and the stored guest base becomes 0x12345000. -/
theorem C3_set_once_counterexample :
    (Env.ok 0xABCDE000 []).xc [Call.xen_host_pci_get_block (dev0 0) XEN_PCI_INTEL_OPREGION 4]
      (Call.xc_domain_memory_mapping 0 0xABCDE 3 DPCI_ADD_MAPPING) = 0 ∧
    (igd_write_opregion (Env.ok 0xABCDE000 []) (s0 0) 0 World.init).trace =
      [ Call.xen_host_pci_get_block (dev0 0) XEN_PCI_INTEL_OPREGION 4,
        Call.xc_domain_memory_mapping 0 0xABCDE 3 DPCI_ADD_MAPPING ] ∧
    (igd_write_opregion (Env.ok 0xABCDE000 []) (s0 0) 0x12345000
      (igd_write_opregion (Env.ok 0xABCDE000 []) (s0 0) 0 World.init)).trace =
      [ Call.xen_host_pci_get_block (dev0 0) XEN_PCI_INTEL_OPREGION 4,
        Call.xc_domain_memory_mapping 0 0xABCDE 3 DPCI_ADD_MAPPING,
        Call.xen_host_pci_get_block (dev0 0) XEN_PCI_INTEL_OPREGION 4,
        Call.xc_domain_memory_mapping 0x12345 0xABCDE 3 DPCI_ADD_MAPPING ] ∧
    (igd_write_opregion (Env.ok 0xABCDE000 []) (s0 0) 0x12345000
      (igd_write_opregion (Env.ok 0xABCDE000 []) (s0 0) 0 World.init)).igd_guest_opregion
      = 0x12345000 := by
  refine ⟨rfl, ?_, ?_, ?_⟩ <;> decide

/-- C3 (amended): if the first write, made in the Unset state, had its
add-mapping call accepted and derived a non-zero guest base
g = (v1 & ~0xFFF) | (h & 0xFFF), then a second write of any value is ignored:
it leaves the statics and the trace as they were (no host config read, no
hypervisor call), the stored bases are g and h, and the state is Set. -/
theorem C3_set_once (env : Env) (s : XenPCIPassthroughState) (w : World) (v1 h v2 : Nat)
    (hunset : ¬ OpRegionSet w) (hhost : w.igd_host_opregion < 2 ^ 32)
    (hv : v1 < 2 ^ 32) (hh : h < 2 ^ 32)
    (hcfg : env.host_pci_block w.trace s.real_device XEN_PCI_INTEL_OPREGION 4 = h)
    (hok : env.xc
      (w.trace ++ [Call.xen_host_pci_get_block s.real_device XEN_PCI_INTEL_OPREGION 4])
      (Call.xc_domain_memory_mapping (((v1 &&& 0xFFFFF000) ||| (h &&& 0xFFF)) >>> 12)
        (h >>> 12) 3 DPCI_ADD_MAPPING) = 0)
    (hg : (v1 &&& 0xFFFFF000) ||| (h &&& 0xFFF) ≠ 0) :
    igd_write_opregion env s v2 (igd_write_opregion env s v1 w)
      = igd_write_opregion env s v1 w ∧
    (igd_write_opregion env s v2 (igd_write_opregion env s v1 w)).igd_guest_opregion
      = (v1 &&& 0xFFFFF000) ||| (h &&& 0xFFF) ∧
    (igd_write_opregion env s v2 (igd_write_opregion env s v1 w)).igd_host_opregion = h ∧
    (igd_write_opregion env s v2 (igd_write_opregion env s v1 w)).trace = w.trace ++
      [ Call.xen_host_pci_get_block s.real_device XEN_PCI_INTEL_OPREGION 4,
        Call.xc_domain_memory_mapping (((v1 &&& 0xFFFFF000) ||| (h &&& 0xFFF)) >>> 12)
          (h >>> 12) 3 DPCI_ADD_MAPPING ] ∧
    OpRegionSet (igd_write_opregion env s v2 (igd_write_opregion env s v1 w)) := by
  have h1 := igd_write_opregion_unset env s w v1 h hunset hhost hv hh hcfg
  rw [if_neg (by simp [hok])] at h1
  have h2 : igd_write_opregion env s v2 (igd_write_opregion env s v1 w)
      = igd_write_opregion env s v1 w := by
    rw [h1]
    unfold igd_write_opregion
    simp only [ne_eq, hg, not_false_eq_true, if_true]
  rw [h2, h1]
  exact ⟨rfl, rfl, rfl, rfl, hg⟩

/-- C3 (amended) on the end-to-end example followed by a second write. -/
theorem C3_set_once_witness :
    igd_write_opregion (Env.ok 0xABCDE800 []) (s0 0) 0x55555000
      (igd_write_opregion (Env.ok 0xABCDE800 []) (s0 0) 0x12345000 World.init)
      = igd_write_opregion (Env.ok 0xABCDE800 []) (s0 0) 0x12345000 World.init ∧
    (igd_write_opregion (Env.ok 0xABCDE800 []) (s0 0) 0x55555000
      (igd_write_opregion (Env.ok 0xABCDE800 []) (s0 0) 0x12345000 World.init)).igd_guest_opregion
      = 0x12345800 :=
  have h := C3_set_once (Env.ok 0xABCDE800 []) (s0 0) World.init 0x12345000 0xABCDE800
    0x55555000 (by decide) (by decide) (by decide) (by decide) rfl rfl (by decide)
  ⟨h.1, h.2.1⟩

/-- C4 as stated fails: with the OpRegion state Set (guest base 0x12345800,
host base 0xABCDE800) and a hypervisor that accepts every call, unregister
returns 0 after the three VGA calls and the OpRegion remove-mapping, but the
state is still Set: `igd_read_opregion` still returns 0x12345800 and a second
unregister issues the OpRegion remove-mapping again. -/
theorem C4_unregister_resets_counterexample :
    (xen_pt_unregister_vga_regions (Env.ok 0 []) (dev0 0)
      { World.init with igd_guest_opregion := 0x12345800,
                        igd_host_opregion := 0xABCDE800 }).1 = 0 ∧
    (xen_pt_unregister_vga_regions (Env.ok 0 []) (dev0 0)
      { World.init with igd_guest_opregion := 0x12345800,
                        igd_host_opregion := 0xABCDE800 }).2.trace =
      [ Call.xc_domain_ioport_mapping 0x3B0 0x3B0 0xC DPCI_REMOVE_MAPPING,
        Call.xc_domain_ioport_mapping 0x3C0 0x3C0 0x20 DPCI_REMOVE_MAPPING,
        Call.xc_domain_memory_mapping 0xA0 0xA0 0x20 DPCI_REMOVE_MAPPING,
        Call.xc_domain_memory_mapping 0x12345 0xABCDE 3 DPCI_REMOVE_MAPPING ] ∧
    igd_read_opregion (s0 0) (xen_pt_unregister_vga_regions (Env.ok 0 []) (dev0 0)
      { World.init with igd_guest_opregion := 0x12345800,
                        igd_host_opregion := 0xABCDE800 }).2 = 0x12345800 ∧
    (xen_pt_unregister_vga_regions (Env.ok 0 []) (dev0 0)
      (xen_pt_unregister_vga_regions (Env.ok 0 []) (dev0 0)
        { World.init with igd_guest_opregion := 0x12345800,
                          igd_host_opregion := 0xABCDE800 }).2).2.trace =
      [ Call.xc_domain_ioport_mapping 0x3B0 0x3B0 0xC DPCI_REMOVE_MAPPING,
        Call.xc_domain_ioport_mapping 0x3C0 0x3C0 0x20 DPCI_REMOVE_MAPPING,
        Call.xc_domain_memory_mapping 0xA0 0xA0 0x20 DPCI_REMOVE_MAPPING,
        Call.xc_domain_memory_mapping 0x12345 0xABCDE 3 DPCI_REMOVE_MAPPING,
        Call.xc_domain_ioport_mapping 0x3B0 0x3B0 0xC DPCI_REMOVE_MAPPING,
        Call.xc_domain_ioport_mapping 0x3C0 0x3C0 0x20 DPCI_REMOVE_MAPPING,
        Call.xc_domain_memory_mapping 0xA0 0xA0 0x20 DPCI_REMOVE_MAPPING,
        Call.xc_domain_memory_mapping 0x12345 0xABCDE 3 DPCI_REMOVE_MAPPING ] := by
  refine ⟨?_, ?_, ?_, ?_⟩ <;> decide

/-- C4 (amended): when the OpRegion state is Set and unregister runs for a
qualifying device with all three VGA remove-mapping calls accepted, it issues
the OpRegion remove-mapping call for (guest >> 12, host >> 12, 3) and returns
that call's status (0 when accepted, the failing status otherwise); whether the
call is accepted or fails, the stored bases are untouched, so the state stays
Set and `igd_read_opregion` returns what it returned before. -/
theorem C4_unregister_keeps_opregion_set (env : Env) (dev : XenHostPCIDevice)
    (s : XenPCIPassthroughState) (w : World)
    (hq : env.is_igd_vga_passthrough dev = true)
    (hshape : VgaArgsIntact w.vga_args)
    (hset : OpRegionSet w)
    (hvga : ∀ j, j < 3 →
      env.xc (w.trace ++ (vga_calls DPCI_REMOVE_MAPPING).take j)
        ((vga_calls DPCI_REMOVE_MAPPING).getD j Call.open_dev_mem) = 0) :
    (xen_pt_unregister_vga_regions env dev w).1
      = env.xc (w.trace ++ vga_calls DPCI_REMOVE_MAPPING)
          (Call.xc_domain_memory_mapping (w.igd_guest_opregion >>> 12)
            (w.igd_host_opregion >>> 12) 3 DPCI_REMOVE_MAPPING) ∧
    (xen_pt_unregister_vga_regions env dev w).2.trace
      = w.trace ++ vga_calls DPCI_REMOVE_MAPPING ++
          [ Call.xc_domain_memory_mapping (w.igd_guest_opregion >>> 12)
              (w.igd_host_opregion >>> 12) 3 DPCI_REMOVE_MAPPING ] ∧
    (xen_pt_unregister_vga_regions env dev w).2.igd_guest_opregion = w.igd_guest_opregion ∧
    (xen_pt_unregister_vga_regions env dev w).2.igd_host_opregion = w.igd_host_opregion ∧
    OpRegionSet (xen_pt_unregister_vga_regions env dev w).2 ∧
    igd_read_opregion s (xen_pt_unregister_vga_regions env dev w).2 = igd_read_opregion s w := by
  obtain ⟨b1, b2, b3, b4, _⟩ := vga_regions_loop_ok env DPCI_REMOVE_MAPPING w hvga hshape
  have hg : (vga_regions_loop env DPCI_REMOVE_MAPPING w.vga_args.length 0 w).2.igd_guest_opregion
      ≠ 0 := by
    rw [b3]; exact hset
  unfold xen_pt_unregister_vga_regions
  simp only [hq, Bool.not_true, Bool.false_eq_true, if_false, b1, ne_eq, not_true_eq_false,
    hg, not_false_eq_true, if_true, b2, b3, b4, XC_PAGE_SHIFT]
  have hset1 : w.igd_guest_opregion ≠ 0 := hset
  by_cases hret : env.xc (w.trace ++ vga_calls DPCI_REMOVE_MAPPING)
      (Call.xc_domain_memory_mapping (w.igd_guest_opregion >>> 12)
        (w.igd_host_opregion >>> 12) 3 DPCI_REMOVE_MAPPING) = 0
  · simp [hret, OpRegionSet, igd_read_opregion, hset1]
  · simp [hret, OpRegionSet, igd_read_opregion, hset1]

/-- C4 (amended) on a Set state with a hypervisor that accepts every call. -/
theorem C4_unregister_keeps_opregion_set_witness :
    OpRegionSet (xen_pt_unregister_vga_regions (Env.ok 0 []) (dev0 0)
      { World.init with igd_guest_opregion := 0x12345800,
                        igd_host_opregion := 0xABCDE800 }).2 :=
  (C4_unregister_keeps_opregion_set (Env.ok 0 []) (dev0 0) (s0 0)
    { World.init with igd_guest_opregion := 0x12345800, igd_host_opregion := 0xABCDE800 }
    rfl (by decide) (by decide) (fun _ _ => rfl)).2.2.2.2.1

/-- C9: for a qualifying device, if region `i` (0, 1 or 2) is the first whose
add-mapping call returns a non-zero status `rc`, `xen_pt_register_vga_regions`
returns `rc`, has issued the add-mapping calls of regions `0..i` and nothing
else (no call for a later region, no remove-mapping call), and leaves the
OpRegion statics untouched. -/
theorem C9_register_aborts_on_first_failure (env : Env) (dev : XenHostPCIDevice) (w : World)
    (i : Nat) (rc : Int)
    (hq : env.is_igd_vga_passthrough dev = true)
    (hshape : VgaArgsIntact w.vga_args) (hi : i < 3) (hrc : rc ≠ 0)
    (hprev : ∀ j, j < i →
      env.xc (w.trace ++ (vga_calls DPCI_ADD_MAPPING).take j)
        ((vga_calls DPCI_ADD_MAPPING).getD j Call.open_dev_mem) = 0)
    (hfail :
      env.xc (w.trace ++ (vga_calls DPCI_ADD_MAPPING).take i)
        ((vga_calls DPCI_ADD_MAPPING).getD i Call.open_dev_mem) = rc) :
    (xen_pt_register_vga_regions env dev w).1 = rc ∧
    (xen_pt_register_vga_regions env dev w).2.trace
      = w.trace ++ (vga_calls DPCI_ADD_MAPPING).take (i + 1) ∧
    (∀ c ∈ (xen_pt_register_vga_regions env dev w).2.trace.drop w.trace.length,
      c.mapping_flag = some DPCI_ADD_MAPPING) ∧
    (xen_pt_register_vga_regions env dev w).2.igd_guest_opregion = w.igd_guest_opregion ∧
    (xen_pt_register_vga_regions env dev w).2.igd_host_opregion = w.igd_host_opregion := by
  obtain ⟨a1, a2, a3, a4, _⟩ :=
    vga_regions_loop_fail env DPCI_ADD_MAPPING w i rc hshape hi hrc hprev hfail
  have hreg : xen_pt_register_vga_regions env dev w
      = vga_regions_loop env DPCI_ADD_MAPPING w.vga_args.length 0 w := by
    simp [xen_pt_register_vga_regions, hq, a1, hrc]
  rw [hreg]
  refine ⟨a1, a2, ?_, a3, a4⟩
  rw [a2]
  intro c hc
  simp only [List.drop_left] at hc
  have hc1 := List.mem_of_mem_take hc
  simp [vga_calls] at hc1
  rcases hc1 with rfl | rfl | rfl <;> rfl

/-- C9 at program start with the second add-mapping call failing with -22. -/
theorem C9_register_aborts_on_first_failure_witness :
    (xen_pt_register_vga_regions (Env.failAt 1 (-22) 0 []) (dev0 0) World.init).1 = -22 ∧
    (xen_pt_register_vga_regions (Env.failAt 1 (-22) 0 []) (dev0 0) World.init).2.trace =
      [ Call.xc_domain_ioport_mapping 0x3B0 0x3B0 0xC DPCI_ADD_MAPPING,
        Call.xc_domain_ioport_mapping 0x3C0 0x3C0 0x20 DPCI_ADD_MAPPING ] :=
  have h := C9_register_aborts_on_first_failure (Env.failAt 1 (-22) 0 []) (dev0 0) World.init
    1 (-22) rfl (by decide) (by decide) (by decide)
    (fun j hj => by
      have h0 : j = 0 := by omega
      subst h0; rfl)
    rfl
  ⟨h.1, h.2.1⟩

/-- C10: for a qualifying device, if region `i` (0, 1 or 2) is the first whose
remove-mapping call returns a non-zero status `rc`,
`xen_pt_unregister_vga_regions` returns `rc`, has issued the remove-mapping
calls of regions `0..i` and nothing else (no call for a later region and no
OpRegion remove-mapping, whatever the OpRegion state), and leaves the OpRegion
statics unchanged. -/
theorem C10_unregister_aborts_on_first_failure (env : Env) (dev : XenHostPCIDevice)
    (w : World) (i : Nat) (rc : Int)
    (hq : env.is_igd_vga_passthrough dev = true)
    (hshape : VgaArgsIntact w.vga_args) (hi : i < 3) (hrc : rc ≠ 0)
    (hprev : ∀ j, j < i →
      env.xc (w.trace ++ (vga_calls DPCI_REMOVE_MAPPING).take j)
        ((vga_calls DPCI_REMOVE_MAPPING).getD j Call.open_dev_mem) = 0)
    (hfail :
      env.xc (w.trace ++ (vga_calls DPCI_REMOVE_MAPPING).take i)
        ((vga_calls DPCI_REMOVE_MAPPING).getD i Call.open_dev_mem) = rc) :
    (xen_pt_unregister_vga_regions env dev w).1 = rc ∧
    (xen_pt_unregister_vga_regions env dev w).2.trace
      = w.trace ++ (vga_calls DPCI_REMOVE_MAPPING).take (i + 1) ∧
    (xen_pt_unregister_vga_regions env dev w).2.igd_guest_opregion = w.igd_guest_opregion ∧
    (xen_pt_unregister_vga_regions env dev w).2.igd_host_opregion = w.igd_host_opregion ∧
    (OpRegionSet (xen_pt_unregister_vga_regions env dev w).2 ↔ OpRegionSet w) := by
  obtain ⟨a1, a2, a3, a4, _⟩ :=
    vga_regions_loop_fail env DPCI_REMOVE_MAPPING w i rc hshape hi hrc hprev hfail
  have hun : xen_pt_unregister_vga_regions env dev w
      = vga_regions_loop env DPCI_REMOVE_MAPPING w.vga_args.length 0 w := by
    simp [xen_pt_unregister_vga_regions, hq, a1, hrc]
  rw [hun]
  refine ⟨a1, a2, a3, a4, ?_⟩
  unfold OpRegionSet
  rw [a3]

/-- C10 on a Set state with the third remove-mapping call failing with -1: the
OpRegion remove-mapping is not attempted. -/
theorem C10_unregister_aborts_on_first_failure_witness :
    (xen_pt_unregister_vga_regions (Env.failAt 2 (-1) 0 []) (dev0 0)
      { World.init with igd_guest_opregion := 0x12345800,
                        igd_host_opregion := 0xABCDE800 }).1 = -1 ∧
    (xen_pt_unregister_vga_regions (Env.failAt 2 (-1) 0 []) (dev0 0)
      { World.init with igd_guest_opregion := 0x12345800,
                        igd_host_opregion := 0xABCDE800 }).2.trace =
      [ Call.xc_domain_ioport_mapping 0x3B0 0x3B0 0xC DPCI_REMOVE_MAPPING,
        Call.xc_domain_ioport_mapping 0x3C0 0x3C0 0x20 DPCI_REMOVE_MAPPING,
        Call.xc_domain_memory_mapping 0xA0 0xA0 0x20 DPCI_REMOVE_MAPPING ] :=
  have h := C10_unregister_aborts_on_first_failure (Env.failAt 2 (-1) 0 []) (dev0 0)
    { World.init with igd_guest_opregion := 0x12345800, igd_host_opregion := 0xABCDE800 }
    2 (-1) rfl (by decide) (by decide) (by decide)
    (fun j hj => by
      have h0 : j = 0 ∨ j = 1 := by omega
      rcases h0 with rfl | rfl <;> rfl)
    rfl
  ⟨h.1, h.2.1⟩

set_option maxRecDepth 100000

/-- C8, evaluated at a qualifying device whose embedded image is the two bytes
0x00 0x00: `xen_pt_setup_vga` returns without any call to a collaborator (no
guest-memory write, no ROM BAR registration) and with `has_rom` unchanged, but
`*errp` is left unset, so the caller sees no error. The sibling
`xen_pt_direct_vbios_copy` does set an ImageCorrupt error on the same bad magic. -/
theorem C8_bad_magic_sets_no_error :
    (Env.ok 0 [0x00, 0x00]).is_igd_vga_passthrough (dev0 0) = true ∧
    xen_pt_setup_vga (Env.ok 0 [0x00, 0x00]) (s0 0) (dev0 0) World.init
      = { s := s0 0, w := World.init, errp := none } ∧
    ((xen_pt_direct_vbios_copy
        { Env.ok 0 [] with open_dev_mem := fun _ => true,
                           mmap_dev_mem := fun _ _ _ => some [0x00, 0x00] }
        (s0 0) World.init).errp.map SetupError.kind) = some ErrorKind.ImageCorrupt := by
  refine ⟨rfl, ?_, ?_⟩ <;> decide

/-- C14: for a device that does not qualify as IGD-VGA-passthrough,
`xen_pt_register_vga_regions` and `xen_pt_unregister_vga_regions` return 0 and
leave the world exactly as it was: no call is added to the trace (no VGA region
call, no OpRegion remove-mapping, whatever the OpRegion state), and the `rc`
fields of `vga_args` and the OpRegion statics are unchanged. -/
theorem C14_not_qualifying_is_noop (env : Env) (dev : XenHostPCIDevice) (w : World)
    (hq : env.is_igd_vga_passthrough dev = false) :
    xen_pt_register_vga_regions env dev w = (0, w) ∧
    xen_pt_unregister_vga_regions env dev w = (0, w) := by
  simp [xen_pt_register_vga_regions, xen_pt_unregister_vga_regions, hq]

/-- C14 on a Set state with a device that does not qualify. -/
theorem C14_not_qualifying_is_noop_witness :
    xen_pt_unregister_vga_regions { Env.ok 0 [] with is_igd_vga_passthrough := fun _ => false }
      (dev0 0) { World.init with igd_guest_opregion := 0x12345800,
                                 igd_host_opregion := 0xABCDE800 }
      = (0, { World.init with igd_guest_opregion := 0x12345800,
                              igd_host_opregion := 0xABCDE800 }) :=
  (C14_not_qualifying_is_noop { Env.ok 0 [] with is_igd_vga_passthrough := fun _ => false }
    (dev0 0) { World.init with igd_guest_opregion := 0x12345800,
                               igd_host_opregion := 0xABCDE800 } rfl).2

/-- C17: for a device that does not qualify as IGD-VGA-passthrough,
`xen_pt_setup_vga` sets the error "Need to enable igd-passthrough", of kind
ConfigurationError, and has no other effect: the device state (ROM region,
`has_rom`) and the world (statics, trace) are returned as they were, so no
acquisition strategy ran, nothing was written to guest memory and no ROM BAR
was registered. -/
theorem C17_not_qualifying_setup_fails (env : Env) (s : XenPCIPassthroughState)
    (dev : XenHostPCIDevice) (w : World)
    (hq : env.is_igd_vga_passthrough dev = false) :
    xen_pt_setup_vga env s dev w = { s := s, w := w, errp := some .need_igd_passthrough } ∧
    (xen_pt_setup_vga env s dev w).errp.map SetupError.kind
      = some ErrorKind.ConfigurationError := by
  simp [xen_pt_setup_vga, hq, SetupError.kind]

/-- C17 with a well-formed embedded image and a device that does not qualify. -/
theorem C17_not_qualifying_setup_fails_witness :
    xen_pt_setup_vga { Env.ok 0 [0x55, 0xAA] with is_igd_vga_passthrough := fun _ => false }
      (s0 0) (dev0 0) World.init
      = { s := s0 0, w := World.init, errp := some .need_igd_passthrough } :=
  (C17_not_qualifying_setup_fails
    { Env.ok 0 [0x55, 0xAA] with is_igd_vga_passthrough := fun _ => false }
    (s0 0) (dev0 0) World.init rfl).1

/-- C13: if the add-mapping call issued by `igd_write_opregion` in an Unset
state returns a non-zero status, the stored guest base is reset to 0 and the
state stays Unset: `igd_read_opregion` then returns 0; the function has no
result or error channel at all (it maps a world to a world), so nothing is
surfaced to the caller; and a later `igd_write_opregion` is not ignored: it
reads the host base again and issues an add-mapping call for the new values. -/
theorem C13_failed_write_leaves_unset (env : Env) (s s2 : XenPCIPassthroughState)
    (w : World) (v h v2 h2 : Nat)
    (hunset : ¬ OpRegionSet w) (hhost : w.igd_host_opregion < 2 ^ 32)
    (hv : v < 2 ^ 32) (hh : h < 2 ^ 32)
    (hcfg : env.host_pci_block w.trace s.real_device XEN_PCI_INTEL_OPREGION 4 = h)
    (hfail : env.xc
      (w.trace ++ [Call.xen_host_pci_get_block s.real_device XEN_PCI_INTEL_OPREGION 4])
      (Call.xc_domain_memory_mapping (((v &&& 0xFFFFF000) ||| (h &&& 0xFFF)) >>> 12)
        (h >>> 12) 3 DPCI_ADD_MAPPING) ≠ 0)
    (hv2 : v2 < 2 ^ 32) (hh2 : h2 < 2 ^ 32)
    (hcfg2 : env.host_pci_block (igd_write_opregion env s v w).trace s2.real_device
      XEN_PCI_INTEL_OPREGION 4 = h2) :
    (igd_write_opregion env s v w).igd_guest_opregion = 0 ∧
    ¬ OpRegionSet (igd_write_opregion env s v w) ∧
    igd_read_opregion s (igd_write_opregion env s v w) = 0 ∧
    (igd_write_opregion env s v w).trace = w.trace ++
      [ Call.xen_host_pci_get_block s.real_device XEN_PCI_INTEL_OPREGION 4,
        Call.xc_domain_memory_mapping (((v &&& 0xFFFFF000) ||| (h &&& 0xFFF)) >>> 12)
          (h >>> 12) 3 DPCI_ADD_MAPPING ] ∧
    (igd_write_opregion env s2 v2 (igd_write_opregion env s v w)).trace
      = (igd_write_opregion env s v w).trace ++
      [ Call.xen_host_pci_get_block s2.real_device XEN_PCI_INTEL_OPREGION 4,
        Call.xc_domain_memory_mapping (((v2 &&& 0xFFFFF000) ||| (h2 &&& 0xFFF)) >>> 12)
          (h2 >>> 12) 3 DPCI_ADD_MAPPING ] := by
  have h1 := igd_write_opregion_unset env s w v h hunset hhost hv hh hcfg
  rw [if_pos hfail] at h1
  have hg : (igd_write_opregion env s v w).igd_guest_opregion = 0 := by rw [h1]
  have hu : ¬ OpRegionSet (igd_write_opregion env s v w) := by
    simp [OpRegionSet, hg]
  have hh1 : (igd_write_opregion env s v w).igd_host_opregion < 2 ^ 32 := by
    rw [h1]; exact hh
  have h2w := igd_write_opregion_unset env s2 (igd_write_opregion env s v w) v2 h2 hu hh1
    hv2 hh2 hcfg2
  refine ⟨hg, hu, ?_, ?_, ?_⟩
  · simp [igd_read_opregion, hg]
  · rw [h1]
  · rw [h2w]
    split <;> rfl

/-- C13 at program start: the first write is refused with status -1, the
second one is carried out. -/
theorem C13_failed_write_leaves_unset_witness :
    igd_read_opregion (s0 0)
      (igd_write_opregion (Env.failAt 1 (-1) 0xABCDE800 []) (s0 0) 0x12345000 World.init) = 0 ∧
    (igd_write_opregion (Env.failAt 1 (-1) 0xABCDE800 []) (s0 0) 0x55555000
      (igd_write_opregion (Env.failAt 1 (-1) 0xABCDE800 []) (s0 0) 0x12345000
        World.init)).trace =
      [ Call.xen_host_pci_get_block (dev0 0) XEN_PCI_INTEL_OPREGION 4,
        Call.xc_domain_memory_mapping 0x12345 0xABCDE 3 DPCI_ADD_MAPPING,
        Call.xen_host_pci_get_block (dev0 0) XEN_PCI_INTEL_OPREGION 4,
        Call.xc_domain_memory_mapping 0x55555 0xABCDE 3 DPCI_ADD_MAPPING ] := by
  have h := C13_failed_write_leaves_unset (Env.failAt 1 (-1) 0xABCDE800 []) (s0 0) (s0 0)
    World.init 0x12345000 0xABCDE800 0x55555000 0xABCDE800 (by decide) (by decide)
    (by decide) (by decide) rfl (by decide) (by decide) (by decide) rfl
  refine ⟨h.2.2.1, ?_⟩
  rw [h.2.2.2.2, h.2.2.2.1]
  rfl

/-- C16: for a qualifying device and an embedded image of length n ≤ 0x20000
that starts with 0x55 0xAA, `xen_pt_setup_vga` allocates the 0x20000-byte ROM
region, which holds arbitrary bytes when allocated and is zeroed by `memset`,
performs exactly one guest-physical-memory write, at 0xC0000, of 0x20000 bytes
that are the image followed by zeros, sets the region's address
to 0xC0000, registers it as the expansion-ROM BAR, sets `has_rom` and leaves
`*errp` unset. -/
theorem C16_embedded_image_installed (env : Env) (s : XenPCIPassthroughState)
    (dev : XenHostPCIDevice) (w : World)
    (hq : env.is_igd_vga_passthrough dev = true)
    (hmagic : env.VBIOS_RENOIR.take 2 = [0x55, 0xAA])
    (hn : env.VBIOS_RENOIR.length ≤ 0x20000) :
    xen_pt_setup_vga env s dev w =
      { s := { s with
          rom := some (env.VBIOS_RENOIR ++
            List.replicate (0x20000 - env.VBIOS_RENOIR.length) 0),
          has_rom := true },
        w := { w with trace := w.trace ++
          [ Call.memory_region_init_ram 0x20000,
            Call.cpu_physical_memory_rw 0xc0000 (env.VBIOS_RENOIR ++
              List.replicate (0x20000 - env.VBIOS_RENOIR.length) 0) 1,
            Call.memory_region_set_address 0xc0000,
            Call.pci_register_bar PCI_ROM_SLOT PCI_BASE_ADDRESS_SPACE_MEMORY ] },
        errp := none } ∧
    guest_writes ((xen_pt_setup_vga env s dev w).w.trace.drop w.trace.length) =
      [ Call.cpu_physical_memory_rw 0xc0000 (env.VBIOS_RENOIR ++
          List.replicate (0x20000 - env.VBIOS_RENOIR.length) 0) 1 ] ∧
    (env.VBIOS_RENOIR ++ List.replicate (0x20000 - env.VBIOS_RENOIR.length) 0).length
      = 0x20000 := by
  have e : 32 <<< XC_PAGE_SHIFT = 0x20000 := by decide
  obtain ⟨h0, h1⟩ := magic_of_take _ hmagic
  have hr := xen_pt_setup_vga_embedded_ok env s w h0 h1 (by rw [e]; exact hn)
  rw [e] at hr
  rw [xen_pt_setup_vga_qualifying env s dev w hq, hr]
  refine ⟨rfl, ?_, ?_⟩
  · simp [guest_writes]
  · simp only [List.length_append, List.length_replicate]
    omega

/-- C16 on the two-byte image 0x55 0xAA. -/
theorem C16_embedded_image_installed_witness :
    guest_writes (xen_pt_setup_vga (Env.ok 0 [0x55, 0xAA]) (s0 0) (dev0 0) World.init).w.trace =
      [ Call.cpu_physical_memory_rw 0xc0000 ([0x55, 0xAA] ++ List.replicate (0x20000 - 2) 0) 1 ] ∧
    (xen_pt_setup_vga (Env.ok 0 [0x55, 0xAA]) (s0 0) (dev0 0) World.init).errp = none ∧
    (xen_pt_setup_vga (Env.ok 0 [0x55, 0xAA]) (s0 0) (dev0 0) World.init).s.has_rom = true := by
  have h := C16_embedded_image_installed (Env.ok 0 [0x55, 0xAA]) (s0 0) (dev0 0) World.init
    rfl rfl (by decide)
  refine ⟨h.2.1, ?_, ?_⟩
  · rw [h.1]
  · rw [h.1]

/-- C15 as stated fails: for a qualifying device with assigned device ID 0x1234
and a 512-byte embedded image that is well-formed (size 1, PCI data at 0x1C)
but carries device ID 0x0000, the bytes `xen_pt_setup_vga` writes at 0xC0000 are
the image itself followed by zeros: the device field still reads 0x0000 and the
first 512 bytes sum to 74 modulo 256. The validation stage, run on the same
image, would have stored 0x1234 and rebalanced the sum to 0. -/
theorem C15_embedded_image_patched_counterexample :
    guest_writes (xen_pt_setup_vga (Env.ok 0 (img_pci_at_0x1c 1 0 0)) (s0 0x1234)
        (dev0 0x1234) World.init).w.trace =
      [ Call.cpu_physical_memory_rw 0xc0000
          (img_pci_at_0x1c 1 0 0 ++ List.replicate (0x20000 - 512) 0) 1 ] ∧
    rom_pcioffset (img_pci_at_0x1c 1 0 0) = 0x1C ∧
    read_u16 (img_pci_at_0x1c 1 0 0 ++ List.replicate (0x20000 - 512) 0) (0x1C + 6) = 0 ∧
    byte_sum (img_pci_at_0x1c 1 0 0 ++ List.replicate (0x20000 - 512) 0)
      (rom_size (img_pci_at_0x1c 1 0 0) * 512) % 256 = 74 ∧
    read_u16 (vbios_validate_patch (s0 0x1234) (img_pci_at_0x1c 1 0 0) World.init).bios
      (0x1C + 6) = 0x1234 ∧
    byte_sum (vbios_validate_patch (s0 0x1234) (img_pci_at_0x1c 1 0 0) World.init).bios
      (rom_size (img_pci_at_0x1c 1 0 0) * 512) % 256 = 0 := by
  have e : 32 <<< XC_PAGE_SHIFT = 0x20000 := by decide
  have hr := xen_pt_setup_vga_embedded_ok (Env.ok 0 (img_pci_at_0x1c 1 0 0)) (s0 0x1234)
    World.init (by decide) (by decide) (by decide)
  rw [e] at hr
  refine ⟨?_, by decide, ?_, ?_, by decide, by decide⟩
  · rw [xen_pt_setup_vga_qualifying _ _ _ _ rfl, hr]
    rfl
  · rw [read_u16_append_left _ _ _ (by decide)]
    decide
  · rw [byte_sum_append_left _ _ _ (by decide)]
    decide

/-- C15 (amended): for a qualifying device and an embedded image of length
n ≤ 0x20000 that starts with 0x55 0xAA, the image is installed without going
through the validation stage: the one guest-memory write, at 0xC0000, carries
the image unchanged followed by zeros, so every 16-bit field of the image (the
PCI-data device ID among them) and the byte sum of every leading part of it are
in the written bytes as they are in the embedded image, whatever the assigned
device's ID. -/
theorem C15_embedded_image_written_unpatched (env : Env) (s : XenPCIPassthroughState)
    (dev : XenHostPCIDevice) (w : World)
    (hq : env.is_igd_vga_passthrough dev = true)
    (hmagic : env.VBIOS_RENOIR.take 2 = [0x55, 0xAA])
    (hn : env.VBIOS_RENOIR.length ≤ 0x20000) :
    guest_writes ((xen_pt_setup_vga env s dev w).w.trace.drop w.trace.length) =
      [ Call.cpu_physical_memory_rw 0xc0000 (env.VBIOS_RENOIR ++
          List.replicate (0x20000 - env.VBIOS_RENOIR.length) 0) 1 ] ∧
    (∀ off, off + 1 < env.VBIOS_RENOIR.length →
      read_u16 (env.VBIOS_RENOIR ++ List.replicate (0x20000 - env.VBIOS_RENOIR.length) 0) off
        = read_u16 env.VBIOS_RENOIR off) ∧
    (∀ k, k ≤ env.VBIOS_RENOIR.length →
      byte_sum (env.VBIOS_RENOIR ++ List.replicate (0x20000 - env.VBIOS_RENOIR.length) 0) k
        = byte_sum env.VBIOS_RENOIR k) := by
  have e : 32 <<< XC_PAGE_SHIFT = 0x20000 := by decide
  obtain ⟨h0, h1⟩ := magic_of_take _ hmagic
  have hr := xen_pt_setup_vga_embedded_ok env s w h0 h1 (by rw [e]; exact hn)
  rw [e] at hr
  refine ⟨?_, ?_, ?_⟩
  · rw [xen_pt_setup_vga_qualifying env s dev w hq, hr]
    simp [guest_writes]
  · intro off hoff
    exact read_u16_append_left _ _ _ hoff
  · intro k hk
    exact byte_sum_append_left _ _ _ hk

/-- C15 (amended) on the 512-byte image carrying device ID 0x0000, for the
assigned device ID 0x1234. -/
theorem C15_embedded_image_written_unpatched_witness :
    guest_writes (xen_pt_setup_vga (Env.ok 0 (img_pci_at_0x1c 1 0 0)) (s0 0x1234)
        (dev0 0x1234) World.init).w.trace =
      [ Call.cpu_physical_memory_rw 0xc0000
          (img_pci_at_0x1c 1 0 0 ++ List.replicate (0x20000 - 512) 0) 1 ] ∧
    read_u16 (img_pci_at_0x1c 1 0 0 ++ List.replicate (0x20000 - 512) 0) 34
      = read_u16 (img_pci_at_0x1c 1 0 0) 34 := by
  have h := C15_embedded_image_written_unpatched (Env.ok 0 (img_pci_at_0x1c 1 0 0))
    (s0 0x1234) (dev0 0x1234) World.init rfl (by decide) (by decide)
  exact ⟨h.1, h.2.1 34 (by decide)⟩

/-- C18: for a qualifying device and any embedded image, `xen_pt_setup_vga`
uses only the embedded-image strategy: none of the calls it issues belongs to
the host option-ROM loader or to the direct physical-memory copy, and two
environments that agree on the embedded image give the same result, however
their option-ROM loader, `/dev/mem` access, hypervisor and host config space
answer. -/
theorem C18_setup_uses_only_embedded_strategy (env env2 : Env)
    (s : XenPCIPassthroughState) (dev : XenHostPCIDevice) (w : World)
    (hq : env.is_igd_vga_passthrough dev = true)
    (hq2 : env2.is_igd_vga_passthrough dev = true)
    (himg : env2.VBIOS_RENOIR = env.VBIOS_RENOIR) :
    xen_pt_setup_vga env2 s dev w = xen_pt_setup_vga env s dev w ∧
    ∀ c ∈ (xen_pt_setup_vga env s dev w).w.trace.drop w.trace.length,
      c.is_fallback_strategy = false := by
  rw [xen_pt_setup_vga_qualifying env s dev w hq, xen_pt_setup_vga_qualifying env2 s dev w hq2]
  refine ⟨xen_pt_setup_vga_embedded_congr env env2 s w himg, ?_⟩
  unfold xen_pt_setup_vga_embedded
  simp only [memset_zero_fresh]
  generalize 32 <<< XC_PAGE_SHIFT = N
  intro c hc
  split at hc
  · simp at hc
  · split at hc
    · simp only [List.drop_left, List.mem_singleton] at hc
      subst hc; rfl
    · simp only [List.append_assoc, List.drop_left, List.singleton_append, List.mem_cons,
        List.mem_singleton, List.not_mem_nil, or_false] at hc
      rcases hc with rfl | rfl | rfl | rfl <;> rfl

/-- C18 with an option-ROM loader and a `/dev/mem` that would both succeed: the
result is that of the environment in which both fail. -/
theorem C18_setup_uses_only_embedded_strategy_witness :
    xen_pt_setup_vga
      { Env.ok 0 [0x55, 0xAA] with
          load_option_rom := fun _ _ _ _ _ => some (img_pci_at_0x1c 1 0 0),
          open_dev_mem := fun _ => true,
          mmap_dev_mem := fun _ _ _ => some [0x55, 0xAA] }
      (s0 0) (dev0 0) World.init
      = xen_pt_setup_vga (Env.ok 0 [0x55, 0xAA]) (s0 0) (dev0 0) World.init :=
  (C18_setup_uses_only_embedded_strategy (Env.ok 0 [0x55, 0xAA])
    { Env.ok 0 [0x55, 0xAA] with
        load_option_rom := fun _ _ _ _ _ => some (img_pci_at_0x1c 1 0 0),
        open_dev_mem := fun _ => true,
        mmap_dev_mem := fun _ _ _ => some [0x55, 0xAA] }
    (s0 0) (dev0 0) World.init rfl rfl rfl).1

/-- C19: for every image buffer of length L that the validation stage does not
reject, every byte index the stage stores to is below L and the buffer keeps its
length; the stores are confined to the two bytes of the device-ID field the
stage patches (at the offset it computes) and the byte at index
header.size * 512 - 1, the latter only when header.size ≥ 1; a byte that differs
from the input is at one of the stored indices; and if the compared device-ID
field already equals the assigned device's ID, nothing is stored and the buffer
is returned unchanged. -/
theorem C19_patch_frame_and_bounds (s : XenPCIPassthroughState) (bios : List Byte)
    (w : World) (hacc : (vbios_validate_patch s bios w).errp = none) :
    (∀ i ∈ vbios_patch_stores s bios, i < bios.length) ∧
    (vbios_validate_patch s bios w).bios.length = bios.length ∧
    (∀ i ∈ vbios_patch_stores s bios,
      i = patched_device_offset bios ∨ i = patched_device_offset bios + 1 ∨
      (i = rom_size bios * 512 - 1 ∧ 1 ≤ rom_size bios)) ∧
    (∀ i, byte_at (vbios_validate_patch s bios w).bios i ≠ byte_at bios i →
      i ∈ vbios_patch_stores s bios) ∧
    (read_u16 bios (patched_device_offset bios) = s.real_device.device_id % 2 ^ 16 →
      (vbios_validate_patch s bios w).bios = bios ∧ vbios_patch_stores s bios = []) := by
  obtain ⟨h1, h2, h3⟩ := vbios_validate_patch_accepted_bounds s bios w hacc
  refine ⟨vbios_patch_stores_in_bounds s bios,
    (vbios_validate_patch_accepts s bios w h1 h2 h3).2.2, ?_, ?_, ?_⟩
  · intro i hi
    by_cases hm : read_u16 bios (patched_device_offset bios)
        = s.real_device.device_id % 2 ^ 16
    · rw [vbios_patch_stores_of_match s bios hm] at hi
      simp at hi
    · rw [vbios_patch_stores_of_mismatch s bios h1 h2 (h3 hm) hm] at hi
      simp only [List.cons_append, List.nil_append, List.mem_cons] at hi
      rcases hi with rfl | rfl | hi
      · exact Or.inl rfl
      · exact Or.inr (Or.inl rfl)
      · split at hi
        · next hc =>
          have hpos := bios_checksum_ne_zero_pos _ _ hc
          simp only [List.mem_singleton] at hi
          exact Or.inr (Or.inr ⟨hi, by omega⟩)
        · simp at hi
  · intro i hi
    by_cases hm : read_u16 bios (patched_device_offset bios)
        = s.real_device.device_id % 2 ^ 16
    · rw [vbios_validate_patch_bios_of_match s bios w hm] at hi
      exact absurd rfl hi
    · rw [vbios_validate_patch_bios_of_mismatch s bios w h1 h2 (h3 hm) hm] at hi
      rw [vbios_patch_stores_of_mismatch s bios h1 h2 (h3 hm) hm]
      by_contra hni
      apply hi
      simp only [List.cons_append, List.nil_append, List.mem_cons, not_or] at hni
      obtain ⟨n1, n2, n3⟩ := hni
      split
      · next hc =>
        rw [if_pos hc] at n3
        simp only [List.mem_singleton] at n3
        rw [byte_at_set, if_neg (fun h => n3 h.1.symm)]
        exact byte_at_write_u16_ne _ _ _ _ n1 n2
      · exact byte_at_write_u16_ne _ _ _ _ n1 n2
  · intro hm
    exact ⟨vbios_validate_patch_bios_of_match s bios w hm, vbios_patch_stores_of_match s bios hm⟩

/-- C19 on a 512-byte image carrying device ID 0x0000, for the assigned device
ID 0x1234: the stage stores to bytes 34, 35 and 511. -/
theorem C19_patch_frame_and_bounds_witness :
    vbios_patch_stores (s0 0x1234) (img_pci_at_0x1c 1 0 0) = [34, 35, 511] ∧
    (∀ i ∈ vbios_patch_stores (s0 0x1234) (img_pci_at_0x1c 1 0 0),
      i < (img_pci_at_0x1c 1 0 0).length) ∧
    (vbios_validate_patch (s0 0x1234) (img_pci_at_0x1c 1 0 0) World.init).bios.length
      = (img_pci_at_0x1c 1 0 0).length := by
  have h := C19_patch_frame_and_bounds (s0 0x1234) (img_pci_at_0x1c 1 0 0) World.init
    (by decide)
  exact ⟨by decide, h.1, h.2.1⟩

/-- C11: after any sequence of calls made from program start, every call
`xen_pt_unregister_vga_regions` issues is one of the three VGA remove-mapping
calls, or it is a memory remove-mapping call with count 3 for the very frames
(guest_frame, host_frame) of an add-mapping call that an earlier
`igd_write_opregion` issued and the hypervisor accepted. If no earlier write had
its add-mapping accepted (none happened, or each one failed), unregister issues
VGA region calls only, and exactly the three of them when the device qualifies
and the hypervisor accepts them. -/
theorem C11_opregion_remove_only_after_mapped_write (env : Env) (ops : List Op)
    (dev : XenHostPCIDevice) :
    (∀ c ∈ (xen_pt_unregister_vga_regions env dev (run_ops env ops World.init)).2.trace.drop
        (run_ops env ops World.init).trace.length,
      c ∈ vga_calls DPCI_REMOVE_MAPPING ∨
      ∃ ops1 s v ops2 gfn mfn, ops = ops1 ++ Op.write_opregion s v :: ops2 ∧
        WriteMapped env (run_ops env ops1 World.init) s v gfn mfn ∧
        c = Call.xc_domain_memory_mapping gfn mfn 3 DPCI_REMOVE_MAPPING) ∧
    ((∀ ops1 s v ops2 gfn mfn, ops = ops1 ++ Op.write_opregion s v :: ops2 →
        ¬ WriteMapped env (run_ops env ops1 World.init) s v gfn mfn) →
      (∀ c ∈ (xen_pt_unregister_vga_regions env dev
            (run_ops env ops World.init)).2.trace.drop
          (run_ops env ops World.init).trace.length,
        c ∈ vga_calls DPCI_REMOVE_MAPPING) ∧
      (env.is_igd_vga_passthrough dev = true →
        (∀ j, j < 3 →
          env.xc ((run_ops env ops World.init).trace ++ (vga_calls DPCI_REMOVE_MAPPING).take j)
            ((vga_calls DPCI_REMOVE_MAPPING).getD j Call.open_dev_mem) = 0) →
        (xen_pt_unregister_vga_regions env dev (run_ops env ops World.init)).2.trace
          = (run_ops env ops World.init).trace ++ vga_calls DPCI_REMOVE_MAPPING)) := by
  have hshape := run_ops_intact env ops World.init init_intact
  have hmain : ∀ c ∈ (xen_pt_unregister_vga_regions env dev
        (run_ops env ops World.init)).2.trace.drop (run_ops env ops World.init).trace.length,
      c ∈ vga_calls DPCI_REMOVE_MAPPING ∨
      ∃ ops1 s v ops2 gfn mfn, ops = ops1 ++ Op.write_opregion s v :: ops2 ∧
        WriteMapped env (run_ops env ops1 World.init) s v gfn mfn ∧
        c = Call.xc_domain_memory_mapping gfn mfn 3 DPCI_REMOVE_MAPPING := by
    intro c hc
    rcases unregister_new_calls env dev _ hshape c hc with h | ⟨hset, hceq⟩
    · exact Or.inl h
    · obtain ⟨ops1, s, v, ops2, e, hm⟩ := run_ops_provenance env ops hset
      exact Or.inr ⟨ops1, s, v, ops2, _, _, e, hm, hceq⟩
  refine ⟨hmain, ?_⟩
  intro hnone
  have hunset : (run_ops env ops World.init).igd_guest_opregion = 0 := by
    by_contra hset
    obtain ⟨ops1, s, v, ops2, e, hm⟩ := run_ops_provenance env ops hset
    exact hnone ops1 s v ops2 _ _ e hm
  refine ⟨?_, ?_⟩
  · intro c hc
    rcases hmain c hc with h | ⟨ops1, s, v, ops2, gfn, mfn, e, hm, _⟩
    · exact h
    · exact absurd hm (hnone ops1 s v ops2 gfn mfn e)
  · intro hq hvga
    exact unregister_unset_trace env dev _ hq hshape hunset hvga

/-- C11 on the end-to-end example: the fourth call of unregister undoes the
mapping the write added. -/
theorem C11_opregion_remove_only_after_mapped_write_witness :
    Call.xc_domain_memory_mapping 0x12345 0xABCDE 3 DPCI_REMOVE_MAPPING
        ∈ vga_calls DPCI_REMOVE_MAPPING ∨
      ∃ ops1 s v ops2 gfn mfn,
        [Op.write_opregion (s0 0) 0x12345000] = ops1 ++ Op.write_opregion s v :: ops2 ∧
        WriteMapped (Env.ok 0xABCDE800 []) (run_ops (Env.ok 0xABCDE800 []) ops1 World.init)
          s v gfn mfn ∧
        Call.xc_domain_memory_mapping 0x12345 0xABCDE 3 DPCI_REMOVE_MAPPING
          = Call.xc_domain_memory_mapping gfn mfn 3 DPCI_REMOVE_MAPPING :=
  (C11_opregion_remove_only_after_mapped_write (Env.ok 0xABCDE800 [])
    [Op.write_opregion (s0 0) 0x12345000] (dev0 0)).1
    (Call.xc_domain_memory_mapping 0x12345 0xABCDE 3 DPCI_REMOVE_MAPPING) (by decide)

/-- C12 as stated fails: a write of 0 while host config space reports the
page-aligned base 0xABCDE000 has its add-mapping call for (0, 0xABCDE, 3)
accepted, but stores guest base 0, the Unset marker; the following unregister,
with every hypervisor call accepted, issues the three VGA remove-mapping calls
only and never removes the mapping that was added. -/
theorem C12_teardown_symmetric_counterexample :
    (igd_write_opregion (Env.ok 0xABCDE000 []) (s0 0) 0 World.init).trace =
      [ Call.xen_host_pci_get_block (dev0 0) XEN_PCI_INTEL_OPREGION 4,
        Call.xc_domain_memory_mapping 0 0xABCDE 3 DPCI_ADD_MAPPING ] ∧
    (Env.ok 0xABCDE000 []).xc
      [Call.xen_host_pci_get_block (dev0 0) XEN_PCI_INTEL_OPREGION 4]
      (Call.xc_domain_memory_mapping 0 0xABCDE 3 DPCI_ADD_MAPPING) = 0 ∧
    (xen_pt_unregister_vga_regions (Env.ok 0xABCDE000 []) (dev0 0)
      (igd_write_opregion (Env.ok 0xABCDE000 []) (s0 0) 0 World.init)).1 = 0 ∧
    (xen_pt_unregister_vga_regions (Env.ok 0xABCDE000 []) (dev0 0)
      (igd_write_opregion (Env.ok 0xABCDE000 []) (s0 0) 0 World.init)).2.trace =
      [ Call.xen_host_pci_get_block (dev0 0) XEN_PCI_INTEL_OPREGION 4,
        Call.xc_domain_memory_mapping 0 0xABCDE 3 DPCI_ADD_MAPPING,
        Call.xc_domain_ioport_mapping 0x3B0 0x3B0 0xC DPCI_REMOVE_MAPPING,
        Call.xc_domain_ioport_mapping 0x3C0 0x3C0 0x20 DPCI_REMOVE_MAPPING,
        Call.xc_domain_memory_mapping 0xA0 0xA0 0x20 DPCI_REMOVE_MAPPING ] := by
  refine ⟨?_, rfl, ?_, ?_⟩ <;> decide

/-- C12 (amended): if a write made in the Unset state had its add-mapping call
for (g >> 12, h >> 12, 3) accepted and the guest base it derived,
g = (v & ~0xFFF) | (h & 0xFFF), is non-zero, then after any further calls into
the file a `xen_pt_unregister_vga_regions` for a qualifying device whose three
VGA remove-mapping calls are accepted issues, right after them, the memory
remove-mapping call for the same (g >> 12, h >> 12, 3). -/
theorem C12_teardown_removes_opregion_mapping (env : Env) (s : XenPCIPassthroughState)
    (dev : XenHostPCIDevice) (w : World) (v h : Nat) (ops : List Op)
    (hunset : ¬ OpRegionSet w) (hhost : w.igd_host_opregion < 2 ^ 32)
    (hshape : VgaArgsIntact w.vga_args)
    (hv : v < 2 ^ 32) (hh : h < 2 ^ 32)
    (hcfg : env.host_pci_block w.trace s.real_device XEN_PCI_INTEL_OPREGION 4 = h)
    (hok : env.xc
      (w.trace ++ [Call.xen_host_pci_get_block s.real_device XEN_PCI_INTEL_OPREGION 4])
      (Call.xc_domain_memory_mapping (((v &&& 0xFFFFF000) ||| (h &&& 0xFFF)) >>> 12)
        (h >>> 12) 3 DPCI_ADD_MAPPING) = 0)
    (hg : (v &&& 0xFFFFF000) ||| (h &&& 0xFFF) ≠ 0)
    (hq : env.is_igd_vga_passthrough dev = true)
    (hvga : ∀ j, j < 3 →
      env.xc ((run_ops env ops (igd_write_opregion env s v w)).trace
          ++ (vga_calls DPCI_REMOVE_MAPPING).take j)
        ((vga_calls DPCI_REMOVE_MAPPING).getD j Call.open_dev_mem) = 0) :
    (igd_write_opregion env s v w).trace = w.trace ++
      [ Call.xen_host_pci_get_block s.real_device XEN_PCI_INTEL_OPREGION 4,
        Call.xc_domain_memory_mapping (((v &&& 0xFFFFF000) ||| (h &&& 0xFFF)) >>> 12)
          (h >>> 12) 3 DPCI_ADD_MAPPING ] ∧
    (xen_pt_unregister_vga_regions env dev
        (run_ops env ops (igd_write_opregion env s v w))).2.trace
      = (run_ops env ops (igd_write_opregion env s v w)).trace
        ++ vga_calls DPCI_REMOVE_MAPPING ++
        [ Call.xc_domain_memory_mapping (((v &&& 0xFFFFF000) ||| (h &&& 0xFFF)) >>> 12)
            (h >>> 12) 3 DPCI_REMOVE_MAPPING ] := by
  have h1 := igd_write_opregion_unset env s w v h hunset hhost hv hh hcfg
  rw [if_neg (by simp [hok])] at h1
  have hg1 : (igd_write_opregion env s v w).igd_guest_opregion
      = (v &&& 0xFFFFF000) ||| (h &&& 0xFFF) := by rw [h1]
  have hh1 : (igd_write_opregion env s v w).igd_host_opregion = h := by rw [h1]
  have hset1 : (igd_write_opregion env s v w).igd_guest_opregion ≠ 0 := by
    rw [hg1]; exact hg
  have hshape1 : VgaArgsIntact (igd_write_opregion env s v w).vga_args := by
    rw [write_vga_args]; exact hshape
  obtain ⟨sg, sh⟩ := run_ops_statics_of_set env ops _ hset1
  have hset2 : (run_ops env ops (igd_write_opregion env s v w)).igd_guest_opregion ≠ 0 := by
    rw [sg]; exact hset1
  have ht := unregister_set_trace env dev _ hq (run_ops_intact env ops _ hshape1) hset2 hvga
  rw [sg, sh, hg1, hh1] at ht
  refine ⟨?_, ht⟩
  rw [h1]

/-- C12 (amended) on the end-to-end example, with a register call between the
write and the unregister. -/
theorem C12_teardown_removes_opregion_mapping_witness :
    (xen_pt_unregister_vga_regions (Env.ok 0xABCDE800 []) (dev0 0)
        (run_ops (Env.ok 0xABCDE800 []) [Op.register (dev0 0)]
          (igd_write_opregion (Env.ok 0xABCDE800 []) (s0 0) 0x12345000 World.init))).2.trace
      = (run_ops (Env.ok 0xABCDE800 []) [Op.register (dev0 0)]
          (igd_write_opregion (Env.ok 0xABCDE800 []) (s0 0) 0x12345000 World.init)).trace
        ++ vga_calls DPCI_REMOVE_MAPPING ++
        [ Call.xc_domain_memory_mapping 0x12345 0xABCDE 3 DPCI_REMOVE_MAPPING ] :=
  (C12_teardown_removes_opregion_mapping (Env.ok 0xABCDE800 []) (s0 0) (dev0 0) World.init
    0x12345000 0xABCDE800 [Op.register (dev0 0)] (by decide) (by decide) (by decide)
    (by decide) (by decide) rfl rfl (by decide) rfl (fun _ _ => rfl)).2

end XenPtGraphics
